import Mathlib

/-!
Shallow embedding of the multi-target weighted optimization/ranking engine of
`src/analysis/optimization.py` (class `OptimizationAnalyzer`) together with the
dataset validation of `src/analysis/base_analyzer.py` (`BaseAnalyzer.validate_data`).

Modelling choices:
* A dataset row is a total map from column names to rational values; only the
  numeric columns that the engine reads matter, and the engine validates that
  every column it reads is numeric.  Exact rational arithmetic stands in for
  floating point.
* A pandas `DataFrame` is a list of rows paired with their index labels
  (`List (Nat × Row)`); `data.copy()` gives the default range index `0, 1, ...`,
  which filtering and sorting preserve, exactly as in pandas.
* A Python constraint dict `{'type': t, 'value': v}` becomes the structure
  `Constraint`; the `constraints` dict becomes an association list in insertion
  order (Python dicts iterate in insertion order, keys are unique).
* Error strings follow the source messages, with the decorative single quotes
  around interpolated names omitted.
* The `result_df` construction is modelled up to its only effectful step: the
  identifier-column insertion (optimization.py lines 126-131) can raise
  `ValueError: cannot insert <name>, already exists` when the identifier name
  is already among the selected output columns, and the outer `except`
  converts that into a failure result; this path is modelled exactly.  The
  remaining column projection and the `round(4)` display rounding neither
  fail nor change the row set, so the embedded `analyze` returns each
  surviving row with its original index and exact composite score, which
  determines that presentation.
-/

namespace DataAnalysisApp

/-- A dataset row: a total assignment of rational values to column names. -/
abbrev Row := String → ℚ

/-- A row tagged with its pandas index label (original position for the
default range index). -/
abbrev IndexedRow := Nat × Row

/-- A row of the ranked output: original index, the row, and its
`_composite_score`. -/
abbrev ScoredRow := Nat × Row × ℚ

/-- The tabular dataset handed to the analyzer: column names, the numeric
dtype predicate (`pd.api.types.is_numeric_dtype`), and the rows. -/
structure Dataset where
  columns : List String
  numeric : String → Bool
  rows : List Row

/-- A constraint dict `{'type': comparator, 'value': threshold}` from
`optimization.py`. -/
structure Constraint where
  type : String
  value : ℚ

/-- The rows of the working copy `df = data.copy()` with their index labels. -/
def indexedRows (data : Dataset) : List IndexedRow :=
  data.rows.enum

/-- `BaseAnalyzer.validate_data`: reject an empty DataFrame.  (The `data is
None` branch of the source has no counterpart here because the embedded
dataset is always present.) -/
def validate_data (data : Dataset) : Option String :=
  if data.rows.isEmpty then some "DataFrame is empty" else none

/-- The `for target in target_variables` loop of `_validate_inputs`: the error
for the first target that is missing from the data or not numeric. -/
def firstTargetError (data : Dataset) : List String → Option String
  | [] => none
  | t :: ts =>
    if t ∈ data.columns then
      if data.numeric t then firstTargetError data ts
      else some ("Target variable " ++ t ++ " must be numeric.")
    else some ("Target variable " ++ t ++ " not found in data.")

/-- The `for direction in optimization_directions` loop of `_validate_inputs`:
the error for the first direction outside `['maximize', 'minimize']`. -/
def firstDirectionError : List String → Option String
  | [] => none
  | d :: ds =>
    if d = "maximize" ∨ d = "minimize" then firstDirectionError ds
    else some ("Invalid optimization direction: " ++ d ++
      ". Must be maximize or minimize.")

/-- The `for target_name in constraints.keys()` loop of `_validate_inputs`:
the error for the first constraint key that is not a selected target. -/
def firstConstraintKeyError (target_variables : List String) :
    List (String × Constraint) → Option String
  | [] => none
  | nc :: cs =>
    if nc.1 ∈ target_variables then firstConstraintKeyError target_variables cs
    else some ("Constraint specified for " ++ nc.1 ++
      " but this target is not selected.")

/-- The `for input_var in input_variables` loop of `_validate_inputs`: the
error for the first input variable that is missing or not numeric. -/
def firstInputError (data : Dataset) : List String → Option String
  | [] => none
  | v :: vs =>
    if v ∈ data.columns then
      if data.numeric v then firstInputError data vs
      else some ("Input variable " ++ v ++ " must be numeric.")
    else some ("Input variable " ++ v ++ " not found in data.")

/-- `OptimizationAnalyzer._validate_inputs`, checks in source order: target
count, target existence and dtype, direction count and values, weight count,
weight non-negativity, weight sum, constraint keys, input count, input
existence and dtype, target and input overlap. -/
def _validate_inputs (data : Dataset) (target_variables : List String)
    (optimization_directions : List String)
    (constraints : List (String × Constraint)) (weights : List ℚ)
    (input_variables : List String) : Option String :=
  if target_variables.length = 0 then
    some "At least one target variable must be selected."
  else if target_variables.length > 5 then
    some "Maximum 5 target variables allowed."
  else match firstTargetError data target_variables with
  | some e => some e
  | none =>
  if optimization_directions.length ≠ target_variables.length then
    some ("Optimization direction must be specified for all " ++
      toString target_variables.length ++ " targets.")
  else match firstDirectionError optimization_directions with
  | some e => some e
  | none =>
  if weights.length ≠ target_variables.length then
    some ("Weights must be specified for all " ++
      toString target_variables.length ++ " targets.")
  else if weights.any (fun w => decide (w < 0)) then
    some "All weights must be non-negative."
  else if weights.sum = 0 then
    some "At least one weight must be positive."
  else match firstConstraintKeyError target_variables constraints with
  | some e => some e
  | none =>
  if input_variables.length = 0 then
    some "At least one input variable must be selected."
  else match firstInputError data input_variables with
  | some e => some e
  | none =>
  if target_variables.any (fun t => input_variables.contains t) then
    some "Target variables and input variables cannot overlap."
  else none

/-- One constraint application from `_apply_constraints`: filter the rows by
the comparator branch that matches `c.type`; an unrecognized comparator string
matches no branch and leaves the rows unchanged. -/
def constraintFilter (name : String) (c : Constraint)
    (df : List IndexedRow) : List IndexedRow :=
  if c.type = ">" then df.filter (fun r => decide (c.value < r.2 name))
  else if c.type = ">=" then df.filter (fun r => decide (c.value ≤ r.2 name))
  else if c.type = "<" then df.filter (fun r => decide (r.2 name < c.value))
  else if c.type = "<=" then df.filter (fun r => decide (r.2 name ≤ c.value))
  else if c.type = "==" ∨ c.type = "=" then
    df.filter (fun r => decide (r.2 name = c.value))
  else df

/-- `OptimizationAnalyzer._apply_constraints`: apply each constraint in
insertion order, skipping keys that are not selected targets. -/
def _apply_constraints (df : List IndexedRow) (target_variables : List String)
    (constraints : List (String × Constraint)) : List IndexedRow :=
  constraints.foldl
    (fun acc nc =>
      if nc.1 ∈ target_variables then constraintFilter nc.1 nc.2 acc else acc)
    df

/-- `numpy.ndarray.min` of a column vector (callers only use it on a
non-empty vector; the `[]` case is an unused default). -/
def listMin : List ℚ → ℚ
  | [] => 0
  | x :: xs => xs.foldl min x

/-- `numpy.ndarray.max` of a column vector (callers only use it on a
non-empty vector; the `[]` case is an unused default). -/
def listMax : List ℚ → ℚ
  | [] => 0
  | x :: xs => xs.foldl max x

/-- One iteration of the `for i, (target, direction, weight) in enumerate(zip(...))`
loop body of `_calculate_scores`: skip zero weights, skip degenerate columns,
otherwise min-max normalize, invert for `minimize`, and accumulate
`weight * normalized` into the score vector. -/
def scoreStep (df : List IndexedRow) (scores : List ℚ)
    (tr : String × String × ℚ) : List ℚ :=
  if tr.2.2 = 0 then scores
  else
    let target_values := df.map (fun r => r.2 tr.1)
    let min_val := listMin target_values
    let max_val := listMax target_values
    if max_val = min_val then scores
    else
      let normalized :=
        target_values.map (fun v => (v - min_val) / (max_val - min_val))
      let normalized :=
        if tr.2.1 = "minimize" then normalized.map (fun x => 1 - x)
        else normalized
      List.zipWith (fun s x => s + tr.2.2 * x) scores normalized

/-- The score vector accumulated by the loop of `_calculate_scores`, starting
from `np.zeros(len(data))`, over the zipped (target, direction, weight)
triples. -/
def rawScores (df : List IndexedRow)
    (triples : List (String × String × ℚ)) : List ℚ :=
  triples.foldl (scoreStep df) (df.map (fun _ => (0 : ℚ)))

/-- `OptimizationAnalyzer._calculate_scores`: accumulate the per-target
contributions, then rescale the final vector to [0,1] when
`scores.max() > scores.min()`. -/
def _calculate_scores (df : List IndexedRow) (target_variables : List String)
    (optimization_directions : List String) (weights : List ℚ) : List ℚ :=
  let scores := rawScores df
    (target_variables.zip (optimization_directions.zip weights))
  if listMin scores < listMax scores then
    scores.map (fun s => (s - listMin scores) / (listMax scores - listMin scores))
  else scores

/-- Division that reports a division by zero instead of performing it. -/
def safeDiv (a b : ℚ) : Option ℚ :=
  if b = 0 then none else some (a / b)

/-- `scoreStep` with every division routed through `safeDiv`: returns `none`
exactly when the loop body would divide by zero. -/
def scoreStepChecked (df : List IndexedRow) (scores : List ℚ)
    (tr : String × String × ℚ) : Option (List ℚ) :=
  if tr.2.2 = 0 then some scores
  else
    let target_values := df.map (fun r => r.2 tr.1)
    let min_val := listMin target_values
    let max_val := listMax target_values
    if max_val = min_val then some scores
    else
      match target_values.mapM
          (fun v => safeDiv (v - min_val) (max_val - min_val)) with
      | none => none
      | some normalized =>
        let normalized :=
          if tr.2.1 = "minimize" then normalized.map (fun x => 1 - x)
          else normalized
        some (List.zipWith (fun s x => s + tr.2.2 * x) scores normalized)

/-- `_calculate_scores` with every division routed through `safeDiv`: returns
`none` exactly when some division by zero would occur. -/
def _calculate_scores_checked (df : List IndexedRow)
    (target_variables : List String) (optimization_directions : List String)
    (weights : List ℚ) : Option (List ℚ) :=
  match (target_variables.zip (optimization_directions.zip weights)).foldlM
      (scoreStepChecked df) (df.map (fun _ => (0 : ℚ))) with
  | none => none
  | some scores =>
    if listMin scores < listMax scores then
      scores.mapM
        (fun s => safeDiv (s - listMin scores) (listMax scores - listMin scores))
    else some scores

/-- The `_composite_score` cell of an output row. -/
def score (x : ScoredRow) : ℚ := x.2.2

/-- Attach the score vector to the filtered rows
(`df_filtered['_composite_score'] = scores`). -/
def attachScores (df : List IndexedRow) (scores : List ℚ) : List ScoredRow :=
  List.zipWith (fun r s => (r.1, r.2, s)) df scores

/-- Insertion step of the descending sort on `_composite_score`. -/
def insertByScoreDesc (x : ScoredRow) : List ScoredRow → List ScoredRow
  | [] => [x]
  | y :: ys =>
    if score y ≤ score x then x :: y :: ys else y :: insertByScoreDesc x ys

/-- Model of `df_filtered.sort_values('_composite_score', ascending=False)`:
the rows reordered so that composite scores are descending.  The source uses
the pandas default sort kind `quicksort`, which leaves the relative order of
equal-score rows unspecified; this model keeps equal-score rows in their
original order.  No theorem below about `analyze` depends on the order chosen
among equal scores. -/
def sortByScoreDesc (l : List ScoredRow) : List ScoredRow :=
  l.foldr insertByScoreDesc []

/-- The columns of `result_df` before the identifier insertion
(`output_columns = input_variables + target_variables + ['_composite_score']`,
optimization.py line 122). -/
def output_columns (input_variables target_variables : List String) :
    List String :=
  input_variables ++ target_variables ++ ["_composite_score"]

/-- The name of the identifier column that `analyze` inserts at position 0 of
`result_df` (optimization.py lines 126-131): `Pass` when the dataset has a
`Pass` column, `Pass` again when it has a `pass` column (filled from `pass`),
and `Row Index` otherwise. -/
def identifierName (data : Dataset) : String :=
  if "Pass" ∈ data.columns then "Pass"
  else if "pass" ∈ data.columns then "Pass"
  else "Row Index"

/-- The result dictionary of `OptimizationAnalyzer.analyze`: either
`{'success': False, 'error': e, ...}` or `{'success': True, 'data': ..., ...}`
with the ranked rows. -/
inductive AnalyzeResult where
  | failure (error : String)
  | success (rows : List ScoredRow)

/-- The error message of a failure result, if any. -/
def AnalyzeResult.errorOf : AnalyzeResult → Option String
  | .failure e => some e
  | .success _ => none

/-- The ranked rows of a success result, if any. -/
def AnalyzeResult.rowsOf : AnalyzeResult → Option (List ScoredRow)
  | .failure _ => none
  | .success rows => some rows

/-- The index labels of the ranked rows of a success result, in output
order. -/
def AnalyzeResult.indicesOf : AnalyzeResult → Option (List Nat)
  | .failure _ => none
  | .success rows => some (rows.map (fun x => x.1))

/-- The `_composite_score` column of a success result, in output order. -/
def AnalyzeResult.scoresOf : AnalyzeResult → Option (List ℚ)
  | .failure _ => none
  | .success rows => some (rows.map score)

/-- `OptimizationAnalyzer.analyze`: validate the data, validate the inputs,
re-check the list lengths (redundantly, as in the source), filter by the
constraints, abort when no row survives, score, sort descending, keep the
first `top_n` rows, and insert the identifier column into the output table.
`pandas.DataFrame.insert` raises `ValueError: cannot insert <name>, already
exists` when the inserted identifier name is already a column of `result_df`
— that is, when it occurs among `output_columns` (reachable: the UI offers a
numeric `Pass` column as an input or target candidate) — and the `except` at
line 151 converts that into a failure result carrying
`Error during optimization: <message>`; this is the one reachable raise of
the happy path, so it is the except wrapper's only branch here. -/
def analyze (data : Dataset) (target_variables : List String)
    (optimization_directions : List String)
    (constraints : List (String × Constraint)) (weights : List ℚ)
    (input_variables : List String) (top_n : Nat) : AnalyzeResult :=
  match validate_data data with
  | some e => .failure e
  | none =>
  match _validate_inputs data target_variables optimization_directions
      constraints weights input_variables with
  | some e => .failure e
  | none =>
  if optimization_directions.length ≠ target_variables.length then
    .failure ("Mismatch: " ++ toString target_variables.length ++
      " targets but " ++ toString optimization_directions.length ++
      " directions.")
  else if weights.length ≠ target_variables.length then
    .failure ("Mismatch: " ++ toString target_variables.length ++
      " targets but " ++ toString weights.length ++ " weights.")
  else
    let df_filtered :=
      _apply_constraints (indexedRows data) target_variables constraints
    if df_filtered.isEmpty then
      .failure "No rows satisfy the specified constraints."
    else
      let scores := _calculate_scores df_filtered target_variables
        optimization_directions weights
      let df_sorted := sortByScoreDesc (attachScores df_filtered scores)
      let top_solutions := df_sorted.take top_n
      if identifierName data ∈
          output_columns input_variables target_variables then
        .failure ("Error during optimization: cannot insert " ++
          identifierName data ++ ", already exists")
      else .success top_solutions

/-! ### Constraint and validation predicates, stated declaratively -/

/-- The predicate a comparator enforces on a cell value: the six recognized
comparator strings enforce their comparison; an unrecognized comparator string
enforces nothing, mirroring the branch fall-through of `_apply_constraints`. -/
def constraintHolds (v : ℚ) (c : Constraint) : Prop :=
  if c.type = ">" then c.value < v
  else if c.type = ">=" then c.value ≤ v
  else if c.type = "<" then v < c.value
  else if c.type = "<=" then v ≤ c.value
  else if c.type = "==" ∨ c.type = "=" then v = c.value
  else True

/-- Boolean form of `constraintHolds`. -/
def constraintHoldsB (v : ℚ) (c : Constraint) : Bool :=
  if c.type = ">" then decide (c.value < v)
  else if c.type = ">=" then decide (c.value ≤ v)
  else if c.type = "<" then decide (v < c.value)
  else if c.type = "<=" then decide (v ≤ c.value)
  else if c.type = "==" ∨ c.type = "=" then decide (v = c.value)
  else true

/-- The combined row predicate that `_apply_constraints` enforces: every
constraint keyed by a selected target holds. -/
def keepRow (target_variables : List String)
    (constraints : List (String × Constraint)) (x : IndexedRow) : Bool :=
  constraints.all
    (fun nc => !(decide (nc.1 ∈ target_variables)) ||
      constraintHoldsB (x.2 nc.1) nc.2)

/-- Rule 1 (spec §4.1): the dataset must be non-empty. -/
def rule1Violated (data : Dataset) : Prop := data.rows = []

/-- Rule 2: between 1 and 5 targets. -/
def rule2Violated (ts : List String) : Prop := ts.length = 0 ∨ ts.length > 5

/-- Rule 3: every target exists and is numeric. -/
def rule3Violated (data : Dataset) (ts : List String) : Prop :=
  ∃ t ∈ ts, t ∉ data.columns ∨ data.numeric t = false

/-- Rule 4: directions match the targets in length and value. -/
def rule4Violated (ts ds : List String) : Prop :=
  ds.length ≠ ts.length ∨ ∃ d ∈ ds, d ≠ "maximize" ∧ d ≠ "minimize"

/-- Rule 5: weights match in length, are non-negative, and have positive sum. -/
def rule5Violated (ts : List String) (ws : List ℚ) : Prop :=
  ws.length ≠ ts.length ∨ (∃ w ∈ ws, w < 0) ∨ ws.sum = 0

/-- Rule 6: every constraint key is a selected target. -/
def rule6Violated (ts : List String) (cs : List (String × Constraint)) : Prop :=
  ∃ nc ∈ cs, nc.1 ∉ ts

/-- Rule 7: at least one input variable, all existing and numeric. -/
def rule7Violated (data : Dataset) (is : List String) : Prop :=
  is.length = 0 ∨ ∃ v ∈ is, v ∉ data.columns ∨ data.numeric v = false

/-- Rule 8: targets and inputs are disjoint. -/
def rule8Violated (ts is : List String) : Prop := ∃ t ∈ ts, t ∈ is

/-! ### Concrete datasets used to instantiate the theorems -/

/-- Row `(Pass 1, Yield 80, Cost 50, X1 3)` of the example dataset. -/
def exRow1 : Row := fun c =>
  if c = "Pass" then 1 else if c = "Yield" then 80
  else if c = "Cost" then 50 else if c = "X1" then 3 else 0

/-- Row `(Pass 2, Yield 90, Cost 40, X1 5)` of the example dataset. -/
def exRow2 : Row := fun c =>
  if c = "Pass" then 2 else if c = "Yield" then 90
  else if c = "Cost" then 40 else if c = "X1" then 5 else 0

/-- Row `(Pass 3, Yield 70, Cost 60, X1 2)` of the example dataset. -/
def exRow3 : Row := fun c =>
  if c = "Pass" then 3 else if c = "Yield" then 70
  else if c = "Cost" then 60 else if c = "X1" then 2 else 0

/-- The example dataset of spec §8: columns `Pass, Yield, Cost, X1`, all
numeric, three rows. -/
def exData : Dataset :=
  { columns := ["Pass", "Yield", "Cost", "X1"],
    numeric := fun _ => true,
    rows := [exRow1, exRow2, exRow3] }

/-- Row `(A 0, B 1, X 0)`. -/
def cexRow1 : Row := fun c =>
  if c = "A" then 0 else if c = "B" then 1 else 0

/-- Row `(A 1, B 0, X 1)`. -/
def cexRow2 : Row := fun c =>
  if c = "A" then 1 else if c = "B" then 0 else 1

/-- A two-row dataset whose rows are distinct and whose target columns `A`
and `B` are both non-degenerate, but which produces tied raw composite
scores under weights `[2, 2]`. -/
def cexData : Dataset :=
  { columns := ["A", "B", "X"],
    numeric := fun _ => true,
    rows := [cexRow1, cexRow2] }

/-- Row `(Yield 80, Cost 50, K 7)`. -/
def zRow1 : Row := fun c =>
  if c = "Yield" then 80 else if c = "Cost" then 50
  else if c = "K" then 7 else 0

/-- Row `(Yield 80, Cost 99, K 7)`: agrees with `zRow1` except on `Cost`. -/
def zRow2 : Row := fun c =>
  if c = "Yield" then 80 else if c = "Cost" then 99
  else if c = "K" then 7 else 0

/-- A two-row working DataFrame whose rows agree on `Yield` and `K` (with
`K` constant, hence degenerate) and differ on `Cost`. -/
def zRows : List IndexedRow := [(0, zRow1), (1, zRow2)]

/-- A dataset with a column but no rows. -/
def emptyData : Dataset :=
  { columns := ["A"], numeric := fun _ => true, rows := [] }

/-! ### Lemmas about `listMin` and `listMax` -/

lemma foldl_min_le_self (xs : List ℚ) (a : ℚ) : xs.foldl min a ≤ a := by
  induction xs generalizing a with
  | nil => simp
  | cons b bs ih => exact le_trans (ih (min a b)) (min_le_left a b)

lemma foldl_min_le_mem (xs : List ℚ) (a x : ℚ) (hx : x ∈ xs) :
    xs.foldl min a ≤ x := by
  induction xs generalizing a with
  | nil => cases hx
  | cons b bs ih =>
    rcases List.mem_cons.mp hx with h | h
    · subst h
      exact le_trans (foldl_min_le_self bs (min a x)) (min_le_right a x)
    · exact ih (min a b) h

lemma listMin_le (l : List ℚ) (x : ℚ) (hx : x ∈ l) : listMin l ≤ x := by
  cases l with
  | nil => cases hx
  | cons a as =>
    rcases List.mem_cons.mp hx with h | h
    · subst h; exact foldl_min_le_self as x
    · exact foldl_min_le_mem as a x h

lemma self_le_foldl_max (xs : List ℚ) (a : ℚ) : a ≤ xs.foldl max a := by
  induction xs generalizing a with
  | nil => simp
  | cons b bs ih => exact le_trans (le_max_left a b) (ih (max a b))

lemma mem_le_foldl_max (xs : List ℚ) (a x : ℚ) (hx : x ∈ xs) :
    x ≤ xs.foldl max a := by
  induction xs generalizing a with
  | nil => cases hx
  | cons b bs ih =>
    rcases List.mem_cons.mp hx with h | h
    · subst h
      exact le_trans (le_max_right a x) (self_le_foldl_max bs (max a x))
    · exact ih (max a b) h

lemma le_listMax (l : List ℚ) (x : ℚ) (hx : x ∈ l) : x ≤ listMax l := by
  cases l with
  | nil => cases hx
  | cons a as =>
    rcases List.mem_cons.mp hx with h | h
    · subst h; exact self_le_foldl_max as x
    · exact mem_le_foldl_max as a x h

lemma foldl_min_mem (xs : List ℚ) (a : ℚ) : xs.foldl min a ∈ a :: xs := by
  induction xs generalizing a with
  | nil => simp
  | cons b bs ih =>
    have h := ih (min a b)
    rw [List.foldl_cons]
    rcases List.mem_cons.mp h with h2 | h2
    · rw [h2]
      rcases min_choice a b with hc | hc <;> rw [hc] <;> simp
    · exact List.mem_cons_of_mem a (List.mem_cons_of_mem b h2)

lemma listMin_mem (l : List ℚ) (h : l ≠ []) : listMin l ∈ l := by
  cases l with
  | nil => exact absurd rfl h
  | cons a as => exact foldl_min_mem as a

lemma foldl_max_mem (xs : List ℚ) (a : ℚ) : xs.foldl max a ∈ a :: xs := by
  induction xs generalizing a with
  | nil => simp
  | cons b bs ih =>
    have h := ih (max a b)
    rw [List.foldl_cons]
    rcases List.mem_cons.mp h with h2 | h2
    · rw [h2]
      rcases max_choice a b with hc | hc <;> rw [hc] <;> simp
    · exact List.mem_cons_of_mem a (List.mem_cons_of_mem b h2)

lemma listMax_mem (l : List ℚ) (h : l ≠ []) : listMax l ∈ l := by
  cases l with
  | nil => exact absurd rfl h
  | cons a as => exact foldl_max_mem as a

lemma listMin_eq_listMax_of_all_eq (l : List ℚ)
    (h : ∀ a ∈ l, ∀ b ∈ l, a = b) : listMin l = listMax l := by
  cases hl : l with
  | nil => rfl
  | cons a as =>
    rw [← hl]
    have hne : l ≠ [] := by rw [hl]; exact List.cons_ne_nil a as
    exact h (listMin l) (listMin_mem l hne) (listMax l) (listMax_mem l hne)

/-! ### Generic fold lemmas -/

lemma foldl_id_of_forall {α β : Type} (f : β → α → β) :
    ∀ (l : List α) (init : β), (∀ x ∈ l, ∀ b, f b x = b) →
      List.foldl f init l = init := by
  intro l
  induction l with
  | nil => intro init h; rfl
  | cons x xs ih =>
    intro init h
    rw [List.foldl_cons, h x (List.mem_cons_self x xs) init]
    exact ih init (fun y hy b => h y (List.mem_cons_of_mem x hy) b)

lemma foldl_skip_middle {α β : Type} (f : β → α → β) (x : α)
    (hx : ∀ b, f b x = b) (l1 l2 : List α) (init : β) :
    List.foldl f init (l1 ++ x :: l2) = List.foldl f init (l1 ++ l2) := by
  rw [List.foldl_append, List.foldl_append, List.foldl_cons, hx]

/-! ### Lemmas about the score computation -/

lemma scoreStep_zero_weight (df : List IndexedRow) (scores : List ℚ)
    (tr : String × String × ℚ) (h : tr.2.2 = 0) :
    scoreStep df scores tr = scores := by
  simp [scoreStep, h]

lemma scoreStep_degenerate (df : List IndexedRow) (scores : List ℚ)
    (tr : String × String × ℚ)
    (h : ∀ r ∈ df, ∀ r2 ∈ df, r.2 tr.1 = r2.2 tr.1) :
    scoreStep df scores tr = scores := by
  unfold scoreStep
  by_cases hw : tr.2.2 = 0
  · simp [hw]
  · have hall : ∀ a ∈ df.map (fun r => r.2 tr.1),
        ∀ b ∈ df.map (fun r => r.2 tr.1), a = b := by
      intro a ha b hb
      rcases List.mem_map.mp ha with ⟨r, hr, hra⟩
      rcases List.mem_map.mp hb with ⟨r2, hr2, hrb⟩
      rw [← hra, ← hrb]
      exact h r hr r2 hr2
    have hmm : listMax (df.map (fun r => r.2 tr.1)) =
        listMin (df.map (fun r => r.2 tr.1)) :=
      (listMin_eq_listMax_of_all_eq _ hall).symm
    simp [hw, hmm]

lemma scoreStep_length (df : List IndexedRow) (scores : List ℚ)
    (tr : String × String × ℚ) (h : scores.length = df.length) :
    (scoreStep df scores tr).length = df.length := by
  unfold scoreStep
  by_cases hw : tr.2.2 = 0
  · simp [hw, h]
  · by_cases hm : listMax (df.map (fun r => r.2 tr.1)) =
        listMin (df.map (fun r => r.2 tr.1))
    · simp [hw, hm, h]
    · by_cases hd : tr.2.1 = "minimize" <;>
        simp [hw, hm, hd, List.length_zipWith, h]

lemma rawScores_length (df : List IndexedRow)
    (triples : List (String × String × ℚ)) :
    (rawScores df triples).length = df.length := by
  unfold rawScores
  have : ∀ (l : List (String × String × ℚ)) (acc : List ℚ),
      acc.length = df.length →
      (l.foldl (scoreStep df) acc).length = df.length := by
    intro l
    induction l with
    | nil => intro acc h; exact h
    | cons x xs ih =>
      intro acc h
      rw [List.foldl_cons]
      exact ih (scoreStep df acc x) (scoreStep_length df acc x h)
  exact this _ _ (by simp)

lemma calculate_scores_length (df : List IndexedRow) (ts ds : List String)
    (ws : List ℚ) : (_calculate_scores df ts ds ws).length = df.length := by
  unfold _calculate_scores
  by_cases hlt : listMin (rawScores df (ts.zip (ds.zip ws))) <
      listMax (rawScores df (ts.zip (ds.zip ws))) <;>
    simp [hlt, rawScores_length]

/-! ### Lemmas about the descending sort and score attachment -/

lemma insertByScoreDesc_perm (x : ScoredRow) (l : List ScoredRow) :
    (insertByScoreDesc x l).Perm (x :: l) := by
  induction l with
  | nil => exact List.Perm.refl _
  | cons y ys ih =>
    unfold insertByScoreDesc
    split
    · exact List.Perm.refl _
    · exact (ih.cons y).trans (List.Perm.swap x y ys)

lemma sortByScoreDesc_perm (l : List ScoredRow) :
    (sortByScoreDesc l).Perm l := by
  induction l with
  | nil => exact List.Perm.refl _
  | cons x xs ih =>
    unfold sortByScoreDesc
    rw [List.foldr_cons]
    exact (insertByScoreDesc_perm x _).trans (ih.cons x)

lemma sortByScoreDesc_length (l : List ScoredRow) :
    (sortByScoreDesc l).length = l.length :=
  (sortByScoreDesc_perm l).length_eq

lemma mem_of_mem_sortByScoreDesc {x : ScoredRow} {l : List ScoredRow}
    (h : x ∈ sortByScoreDesc l) : x ∈ l :=
  (sortByScoreDesc_perm l).mem_iff.mp h

lemma attachScores_length (df : List IndexedRow) (scores : List ℚ) :
    (attachScores df scores).length = min df.length scores.length := by
  simp [attachScores, List.length_zipWith]

lemma mem_attachScores {x : ScoredRow} {df : List IndexedRow}
    {scores : List ℚ} (h : x ∈ attachScores df scores) : (x.1, x.2.1) ∈ df := by
  unfold attachScores at h
  induction df generalizing scores with
  | nil => simp at h
  | cons r rs ih =>
    cases scores with
    | nil => simp at h
    | cons s ss =>
      rw [List.zipWith_cons_cons] at h
      rcases List.mem_cons.mp h with h2 | h2
      · subst h2; exact List.mem_cons_self _ _
      · exact List.mem_cons_of_mem r (ih h2)

/-! ### Constraint semantics -/

lemma constraintHoldsB_eq_true_iff (v : ℚ) (c : Constraint) :
    constraintHoldsB v c = true ↔ constraintHolds v c := by
  unfold constraintHoldsB constraintHolds
  split_ifs <;> simp

lemma constraintFilter_eq_filter (name : String) (c : Constraint)
    (df : List IndexedRow) :
    constraintFilter name c df =
      df.filter (fun r => constraintHoldsB (r.2 name) c) := by
  unfold constraintFilter constraintHoldsB
  split_ifs <;> simp

lemma mem_constraintFilter {x : IndexedRow} {name : String} {c : Constraint}
    {df : List IndexedRow} (h : x ∈ constraintFilter name c df) :
    x ∈ df ∧ constraintHolds (x.2 name) c := by
  rw [constraintFilter_eq_filter] at h
  have h2 := List.mem_filter.mp h
  exact ⟨h2.1, (constraintHoldsB_eq_true_iff _ _).mp h2.2⟩

lemma apply_constraints_cons (df : List IndexedRow) (ts : List String)
    (nc : String × Constraint) (cs : List (String × Constraint)) :
    _apply_constraints df ts (nc :: cs) =
      _apply_constraints
        (if nc.1 ∈ ts then constraintFilter nc.1 nc.2 df else df) ts cs := by
  unfold _apply_constraints
  rw [List.foldl_cons]

lemma apply_constraints_eq_filter (df : List IndexedRow) (ts : List String)
    (cs : List (String × Constraint)) :
    _apply_constraints df ts cs = df.filter (keepRow ts cs) := by
  induction cs generalizing df with
  | nil =>
    unfold _apply_constraints keepRow
    simp
  | cons nc cs ih =>
    rw [apply_constraints_cons, ih]
    by_cases hm : nc.1 ∈ ts
    · rw [if_pos hm, constraintFilter_eq_filter, List.filter_filter]
      unfold keepRow
      apply List.filter_congr
      intro x _
      simp [hm, List.all_cons, Bool.and_comm]
    · rw [if_neg hm]
      unfold keepRow
      apply List.filter_congr
      intro x _
      simp [hm, List.all_cons]

lemma perm_all_eq {α : Type} {l1 l2 : List α} (h : l1.Perm l2) (f : α → Bool) :
    l1.all f = l2.all f := by
  induction h with
  | nil => rfl
  | cons x _ ih => simp [List.all_cons, ih]
  | swap x y l => simp [List.all_cons, ← Bool.and_assoc, Bool.and_comm]
  | trans _ _ ih1 ih2 => rw [ih1, ih2]

lemma mem_apply_constraints {x : IndexedRow} {df : List IndexedRow}
    {ts : List String} {cs : List (String × Constraint)}
    (h : x ∈ _apply_constraints df ts cs) :
    x ∈ df ∧ ∀ nc ∈ cs, nc.1 ∈ ts → constraintHolds (x.2 nc.1) nc.2 := by
  rw [apply_constraints_eq_filter] at h
  have h2 := List.mem_filter.mp h
  refine ⟨h2.1, ?_⟩
  intro nc hnc hmem
  have hall := List.all_eq_true.mp h2.2 nc hnc
  simp only [hmem, decide_eq_true_eq, Bool.not_true, Bool.false_or,
    decide_True] at hall
  exact (constraintHoldsB_eq_true_iff _ _).mp hall

lemma apply_constraints_perm_invariant (df : List IndexedRow) (ts : List String)
    {cs1 cs2 : List (String × Constraint)} (h : cs1.Perm cs2) :
    _apply_constraints df ts cs1 = _apply_constraints df ts cs2 := by
  rw [apply_constraints_eq_filter, apply_constraints_eq_filter]
  apply List.filter_congr
  intro x _
  exact perm_all_eq h _

/-! ### Evaluation and inversion lemmas for `analyze` -/

lemma analyze_of_validate_data_some {data : Dataset} {ts ds : List String}
    {cs : List (String × Constraint)} {ws : List ℚ} {is : List String}
    {n : Nat} {e : String} (h : validate_data data = some e) :
    analyze data ts ds cs ws is n = .failure e := by
  unfold analyze
  rw [h]

lemma analyze_of_validate_inputs_some {data : Dataset} {ts ds : List String}
    {cs : List (String × Constraint)} {ws : List ℚ} {is : List String}
    {n : Nat} {e : String} (h0 : validate_data data = none)
    (h : _validate_inputs data ts ds cs ws is = some e) :
    analyze data ts ds cs ws is n = .failure e := by
  unfold analyze
  rw [h0, h]

lemma analyze_happy_path {data : Dataset} {ts ds : List String}
    {cs : List (String × Constraint)} {ws : List ℚ} {is : List String}
    {n : Nat} (h0 : validate_data data = none)
    (h1 : _validate_inputs data ts ds cs ws is = none)
    (h2 : ds.length = ts.length) (h3 : ws.length = ts.length)
    (h4 : _apply_constraints (indexedRows data) ts cs ≠ [])
    (h5 : identifierName data ∉ output_columns is ts) :
    analyze data ts ds cs ws is n =
      .success ((sortByScoreDesc
        (attachScores (_apply_constraints (indexedRows data) ts cs)
          (_calculate_scores (_apply_constraints (indexedRows data) ts cs)
            ts ds ws))).take n) := by
  unfold analyze
  rw [h0, h1]
  simp only [h2, h3, ne_eq, not_true_eq_false, if_false,
    List.isEmpty_iff, h4, h5]

lemma analyze_insert_conflict {data : Dataset} {ts ds : List String}
    {cs : List (String × Constraint)} {ws : List ℚ} {is : List String}
    {n : Nat} (h0 : validate_data data = none)
    (h1 : _validate_inputs data ts ds cs ws is = none)
    (h2 : ds.length = ts.length) (h3 : ws.length = ts.length)
    (h4 : _apply_constraints (indexedRows data) ts cs ≠ [])
    (h5 : identifierName data ∈ output_columns is ts) :
    analyze data ts ds cs ws is n =
      .failure ("Error during optimization: cannot insert " ++
        identifierName data ++ ", already exists") := by
  unfold analyze
  rw [h0, h1]
  simp only [h2, h3, ne_eq, not_true_eq_false, if_false,
    List.isEmpty_iff, h4, h5, if_true]

lemma analyze_empty_filter {data : Dataset} {ts ds : List String}
    {cs : List (String × Constraint)} {ws : List ℚ} {is : List String}
    {n : Nat} (h0 : validate_data data = none)
    (h1 : _validate_inputs data ts ds cs ws is = none)
    (h2 : ds.length = ts.length) (h3 : ws.length = ts.length)
    (h4 : _apply_constraints (indexedRows data) ts cs = []) :
    analyze data ts ds cs ws is n =
      .failure "No rows satisfy the specified constraints." := by
  unfold analyze
  rw [h0, h1]
  simp [h2, h3, h4]

lemma analyze_success_inv {data : Dataset} {ts ds : List String}
    {cs : List (String × Constraint)} {ws : List ℚ} {is : List String}
    {n : Nat} {out : List ScoredRow}
    (h : analyze data ts ds cs ws is n = .success out) :
    validate_data data = none ∧
    _validate_inputs data ts ds cs ws is = none ∧
    _apply_constraints (indexedRows data) ts cs ≠ [] ∧
    identifierName data ∉ output_columns is ts ∧
    out = (sortByScoreDesc
      (attachScores (_apply_constraints (indexedRows data) ts cs)
        (_calculate_scores (_apply_constraints (indexedRows data) ts cs)
          ts ds ws))).take n := by
  unfold analyze at h
  cases hv : validate_data data with
  | some e => rw [hv] at h; exact absurd h (by simp)
  | none =>
  rw [hv] at h
  cases hvi : _validate_inputs data ts ds cs ws is with
  | some e => rw [hvi] at h; exact absurd h (by simp)
  | none =>
  rw [hvi] at h
  by_cases hd : ds.length = ts.length
  · by_cases hw : ws.length = ts.length
    · simp only [hd, hw, ne_eq, not_true_eq_false, if_false] at h
      by_cases he : _apply_constraints (indexedRows data) ts cs = []
      · rw [if_pos (by simp [he])] at h
        exact absurd h (by simp)
      · rw [if_neg (by simp [he])] at h
        by_cases hid : identifierName data ∈ output_columns is ts
        · rw [if_pos hid] at h
          exact absurd h (by simp)
        · rw [if_neg hid] at h
          have hout := (by simpa using h : _ = out)
          exact ⟨rfl, rfl, he, hid, hout.symm⟩
    · rw [if_neg (by simp [hd]), if_pos (by simp [hw])] at h
      exact absurd h (by simp)
  · rw [if_pos (by simp [hd])] at h
    exact absurd h (by simp)

/-! ### The eight validation rules, stated declaratively -/

lemma validate_data_eq_none_iff (data : Dataset) :
    validate_data data = none ↔ ¬rule1Violated data := by
  unfold validate_data rule1Violated
  by_cases h : data.rows = [] <;> simp [h, List.isEmpty_iff]

lemma firstTargetError_eq_none_iff (data : Dataset) (ts : List String) :
    firstTargetError data ts = none ↔ ¬rule3Violated data ts := by
  unfold rule3Violated
  induction ts with
  | nil => simp [firstTargetError]
  | cons t ts ih =>
    unfold firstTargetError
    by_cases hc : t ∈ data.columns
    · by_cases hn : data.numeric t
      · simp only [if_pos hc, if_pos hn, ih]
        constructor
        · intro h
          rintro ⟨t2, ht2, hbad⟩
          rcases List.mem_cons.mp ht2 with h2 | h2
          · subst h2
            rcases hbad with h3 | h3
            · exact h3 hc
            · rw [hn] at h3; cases h3
          · exact h ⟨t2, h2, hbad⟩
        · intro h hbad
          rcases hbad with ⟨t2, ht2, hbad⟩
          exact h ⟨t2, List.mem_cons_of_mem t ht2, hbad⟩
      · simp only [if_pos hc, if_neg hn]
        constructor
        · intro h; cases h
        · intro h
          exact absurd ⟨t, List.mem_cons_self t ts,
            Or.inr (Bool.eq_false_iff.mpr hn)⟩ h
    · simp only [if_neg hc]
      constructor
      · intro h; cases h
      · intro h
        exact absurd ⟨t, List.mem_cons_self t ts, Or.inl hc⟩ h

lemma firstDirectionError_eq_none_iff (ds : List String) :
    firstDirectionError ds = none ↔
      ¬∃ d ∈ ds, d ≠ "maximize" ∧ d ≠ "minimize" := by
  induction ds with
  | nil => simp [firstDirectionError]
  | cons d ds ih =>
    unfold firstDirectionError
    by_cases hd : d = "maximize" ∨ d = "minimize"
    · simp only [if_pos hd, ih]
      constructor
      · intro h
        rintro ⟨d2, hd2, hbad⟩
        rcases List.mem_cons.mp hd2 with h2 | h2
        · subst h2
          rcases hd with h3 | h3 <;> [exact hbad.1 h3; exact hbad.2 h3]
        · exact h ⟨d2, h2, hbad⟩
      · intro h hbad
        rcases hbad with ⟨d2, hd2, hbad⟩
        exact h ⟨d2, List.mem_cons_of_mem d hd2, hbad⟩
    · simp only [if_neg hd]
      push_neg at hd
      constructor
      · intro h; cases h
      · intro h
        exact absurd ⟨d, List.mem_cons_self d ds, hd⟩ h

lemma firstConstraintKeyError_eq_none_iff (ts : List String)
    (cs : List (String × Constraint)) :
    firstConstraintKeyError ts cs = none ↔ ¬rule6Violated ts cs := by
  unfold rule6Violated
  induction cs with
  | nil => simp [firstConstraintKeyError]
  | cons nc cs ih =>
    unfold firstConstraintKeyError
    by_cases hm : nc.1 ∈ ts
    · simp only [if_pos hm, ih]
      constructor
      · intro h
        rintro ⟨nc2, hnc2, hbad⟩
        rcases List.mem_cons.mp hnc2 with h2 | h2
        · subst h2; exact hbad hm
        · exact h ⟨nc2, h2, hbad⟩
      · intro h hbad
        rcases hbad with ⟨nc2, hnc2, hbad⟩
        exact h ⟨nc2, List.mem_cons_of_mem nc hnc2, hbad⟩
    · simp only [if_neg hm]
      constructor
      · intro h; cases h
      · intro h
        exact absurd ⟨nc, List.mem_cons_self nc cs, hm⟩ h

lemma firstInputError_eq_none_iff (data : Dataset) (is : List String) :
    firstInputError data is = none ↔
      ¬∃ v ∈ is, v ∉ data.columns ∨ data.numeric v = false := by
  induction is with
  | nil => simp [firstInputError]
  | cons v vs ih =>
    unfold firstInputError
    by_cases hc : v ∈ data.columns
    · by_cases hn : data.numeric v
      · simp only [if_pos hc, if_pos hn, ih]
        constructor
        · intro h
          rintro ⟨v2, hv2, hbad⟩
          rcases List.mem_cons.mp hv2 with h2 | h2
          · subst h2
            rcases hbad with h3 | h3
            · exact h3 hc
            · rw [hn] at h3; cases h3
          · exact h ⟨v2, h2, hbad⟩
        · intro h hbad
          rcases hbad with ⟨v2, hv2, hbad⟩
          exact h ⟨v2, List.mem_cons_of_mem v hv2, hbad⟩
      · simp only [if_pos hc, if_neg hn]
        constructor
        · intro h; cases h
        · intro h
          exact absurd ⟨v, List.mem_cons_self v vs,
            Or.inr (Bool.eq_false_iff.mpr hn)⟩ h
    · simp only [if_neg hc]
      constructor
      · intro h; cases h
      · intro h
        exact absurd ⟨v, List.mem_cons_self v vs, Or.inl hc⟩ h

/-! ### Stage-by-stage evaluation of `_validate_inputs` -/

section ValidateInputsEval

variable (data : Dataset) (ts ds : List String)
variable (cs : List (String × Constraint)) (ws : List ℚ) (is : List String)

lemma vi_some_rule2 (h : rule2Violated ts) :
    _validate_inputs data ts ds cs ws is =
      some (if ts.length = 0 then
        "At least one target variable must be selected."
      else "Maximum 5 target variables allowed.") := by
  unfold _validate_inputs
  rcases h with h | h
  · simp [h]
  · have h0 : ts.length ≠ 0 := by omega
    simp [h0, h]

lemma vi_some_rule3 {e : String} (h2 : ¬rule2Violated ts)
    (h : firstTargetError data ts = some e) :
    _validate_inputs data ts ds cs ws is = some e := by
  unfold rule2Violated at h2
  push_neg at h2
  unfold _validate_inputs
  simp [h2.1, h2.2, h]

lemma vi_some_rule4a (h2 : ¬rule2Violated ts)
    (h3 : firstTargetError data ts = none) (h : ds.length ≠ ts.length) :
    _validate_inputs data ts ds cs ws is =
      some ("Optimization direction must be specified for all " ++
        toString ts.length ++ " targets.") := by
  unfold rule2Violated at h2
  push_neg at h2
  unfold _validate_inputs
  simp [h2.1, h2.2, h3, h]

lemma vi_some_rule4b {e : String} (h2 : ¬rule2Violated ts)
    (h3 : firstTargetError data ts = none) (hlen : ds.length = ts.length)
    (h : firstDirectionError ds = some e) :
    _validate_inputs data ts ds cs ws is = some e := by
  unfold rule2Violated at h2
  push_neg at h2
  unfold _validate_inputs
  simp [h2.1, h2.2, h3, hlen, h]

lemma vi_some_rule5a (h2 : ¬rule2Violated ts)
    (h3 : firstTargetError data ts = none) (hlen : ds.length = ts.length)
    (hfd : firstDirectionError ds = none) (h : ws.length ≠ ts.length) :
    _validate_inputs data ts ds cs ws is =
      some ("Weights must be specified for all " ++
        toString ts.length ++ " targets.") := by
  unfold rule2Violated at h2
  push_neg at h2
  unfold _validate_inputs
  simp [h2.1, h2.2, h3, hlen, hfd, h]

lemma vi_some_rule5b (h2 : ¬rule2Violated ts)
    (h3 : firstTargetError data ts = none) (hlen : ds.length = ts.length)
    (hfd : firstDirectionError ds = none) (hwl : ws.length = ts.length)
    (h : ws.any (fun w => decide (w < 0)) = true) :
    _validate_inputs data ts ds cs ws is =
      some "All weights must be non-negative." := by
  unfold rule2Violated at h2
  push_neg at h2
  unfold _validate_inputs
  simp [h2.1, h2.2, h3, hlen, hfd, hwl, h]

lemma vi_some_rule5c (h2 : ¬rule2Violated ts)
    (h3 : firstTargetError data ts = none) (hlen : ds.length = ts.length)
    (hfd : firstDirectionError ds = none) (hwl : ws.length = ts.length)
    (hneg : ws.any (fun w => decide (w < 0)) = false) (h : ws.sum = 0) :
    _validate_inputs data ts ds cs ws is =
      some "At least one weight must be positive." := by
  unfold rule2Violated at h2
  push_neg at h2
  unfold _validate_inputs
  simp [h2.1, h2.2, h3, hlen, hfd, hwl, hneg, h]

lemma vi_some_rule6 {e : String} (h2 : ¬rule2Violated ts)
    (h3 : firstTargetError data ts = none) (hlen : ds.length = ts.length)
    (hfd : firstDirectionError ds = none) (hwl : ws.length = ts.length)
    (hneg : ws.any (fun w => decide (w < 0)) = false) (hsum : ws.sum ≠ 0)
    (h : firstConstraintKeyError ts cs = some e) :
    _validate_inputs data ts ds cs ws is = some e := by
  unfold rule2Violated at h2
  push_neg at h2
  unfold _validate_inputs
  simp [h2.1, h2.2, h3, hlen, hfd, hwl, hneg, hsum, h]

lemma vi_some_rule7a (h2 : ¬rule2Violated ts)
    (h3 : firstTargetError data ts = none) (hlen : ds.length = ts.length)
    (hfd : firstDirectionError ds = none) (hwl : ws.length = ts.length)
    (hneg : ws.any (fun w => decide (w < 0)) = false) (hsum : ws.sum ≠ 0)
    (hck : firstConstraintKeyError ts cs = none) (h : is.length = 0) :
    _validate_inputs data ts ds cs ws is =
      some "At least one input variable must be selected." := by
  unfold rule2Violated at h2
  push_neg at h2
  unfold _validate_inputs
  simp [h2.1, h2.2, h3, hlen, hfd, hwl, hneg, hsum, hck, h]

lemma vi_some_rule7b {e : String} (h2 : ¬rule2Violated ts)
    (h3 : firstTargetError data ts = none) (hlen : ds.length = ts.length)
    (hfd : firstDirectionError ds = none) (hwl : ws.length = ts.length)
    (hneg : ws.any (fun w => decide (w < 0)) = false) (hsum : ws.sum ≠ 0)
    (hck : firstConstraintKeyError ts cs = none) (hil : is.length ≠ 0)
    (h : firstInputError data is = some e) :
    _validate_inputs data ts ds cs ws is = some e := by
  unfold rule2Violated at h2
  push_neg at h2
  unfold _validate_inputs
  simp [h2.1, h2.2, h3, hlen, hfd, hwl, hneg, hsum, hck, hil, h]

lemma vi_some_rule8 (h2 : ¬rule2Violated ts)
    (h3 : firstTargetError data ts = none) (hlen : ds.length = ts.length)
    (hfd : firstDirectionError ds = none) (hwl : ws.length = ts.length)
    (hneg : ws.any (fun w => decide (w < 0)) = false) (hsum : ws.sum ≠ 0)
    (hck : firstConstraintKeyError ts cs = none) (hil : is.length ≠ 0)
    (hfi : firstInputError data is = none)
    (h : ts.any (fun t => is.contains t) = true) :
    _validate_inputs data ts ds cs ws is =
      some "Target variables and input variables cannot overlap." := by
  unfold rule2Violated at h2
  push_neg at h2
  have h25 : ¬5 < ts.length := by omega
  have hex : ∃ x ∈ ts, x ∈ is := by simpa using h
  unfold _validate_inputs
  simp [h2.1, h25, h3, hlen, hfd, hwl, hneg, hsum, hck, hil, hfi, hex]

lemma vi_none (h2 : ¬rule2Violated ts)
    (h3 : firstTargetError data ts = none) (hlen : ds.length = ts.length)
    (hfd : firstDirectionError ds = none) (hwl : ws.length = ts.length)
    (hneg : ws.any (fun w => decide (w < 0)) = false) (hsum : ws.sum ≠ 0)
    (hck : firstConstraintKeyError ts cs = none) (hil : is.length ≠ 0)
    (hfi : firstInputError data is = none)
    (hov : ts.any (fun t => is.contains t) = false) :
    _validate_inputs data ts ds cs ws is = none := by
  unfold rule2Violated at h2
  push_neg at h2
  have h25 : ¬5 < ts.length := by omega
  have hno : ¬∃ x ∈ ts, x ∈ is := by simpa using hov
  unfold _validate_inputs
  simp [h2.1, h25, h3, hlen, hfd, hwl, hneg, hsum, hck, hil, hfi, hno]

end ValidateInputsEval

lemma validate_inputs_eq_none_iff (data : Dataset) (ts ds : List String)
    (cs : List (String × Constraint)) (ws : List ℚ) (is : List String) :
    _validate_inputs data ts ds cs ws is = none ↔
      ¬rule2Violated ts ∧ ¬rule3Violated data ts ∧ ¬rule4Violated ts ds ∧
      ¬rule5Violated ts ws ∧ ¬rule6Violated ts cs ∧ ¬rule7Violated data is ∧
      ¬rule8Violated ts is := by
  constructor
  · intro h
    have h2 : ¬rule2Violated ts := by
      intro hr
      rw [vi_some_rule2 data ts ds cs ws is hr] at h
      cases h
    have hft : firstTargetError data ts = none := by
      cases hfe : firstTargetError data ts with
      | none => rfl
      | some e => rw [vi_some_rule3 data ts ds cs ws is h2 hfe] at h; cases h
    have hlen : ds.length = ts.length := by
      by_contra hne
      rw [vi_some_rule4a data ts ds cs ws is h2 hft hne] at h
      cases h
    have hfd : firstDirectionError ds = none := by
      cases hfe : firstDirectionError ds with
      | none => rfl
      | some e =>
        rw [vi_some_rule4b data ts ds cs ws is h2 hft hlen hfe] at h; cases h
    have hwl : ws.length = ts.length := by
      by_contra hne
      rw [vi_some_rule5a data ts ds cs ws is h2 hft hlen hfd hne] at h
      cases h
    have hneg : ws.any (fun w => decide (w < 0)) = false := by
      cases hfe : ws.any (fun w => decide (w < 0)) with
      | false => rfl
      | true =>
        rw [vi_some_rule5b data ts ds cs ws is h2 hft hlen hfd hwl hfe] at h
        cases h
    have hsum : ws.sum ≠ 0 := by
      intro hz
      rw [vi_some_rule5c data ts ds cs ws is h2 hft hlen hfd hwl hneg hz] at h
      cases h
    have hck : firstConstraintKeyError ts cs = none := by
      cases hfe : firstConstraintKeyError ts cs with
      | none => rfl
      | some e =>
        rw [vi_some_rule6 data ts ds cs ws is h2 hft hlen hfd hwl hneg hsum
          hfe] at h
        cases h
    have hil : is.length ≠ 0 := by
      intro hz
      rw [vi_some_rule7a data ts ds cs ws is h2 hft hlen hfd hwl hneg hsum
        hck hz] at h
      cases h
    have hfi : firstInputError data is = none := by
      cases hfe : firstInputError data is with
      | none => rfl
      | some e =>
        rw [vi_some_rule7b data ts ds cs ws is h2 hft hlen hfd hwl hneg hsum
          hck hil hfe] at h
        cases h
    have hov : ts.any (fun t => is.contains t) = false := by
      cases hfe : ts.any (fun t => is.contains t) with
      | false => rfl
      | true =>
        rw [vi_some_rule8 data ts ds cs ws is h2 hft hlen hfd hwl hneg hsum
          hck hil hfi hfe] at h
        cases h
    refine ⟨h2, (firstTargetError_eq_none_iff data ts).mp hft, ?_, ?_, ?_, ?_, ?_⟩
    · rintro (hb | hb)
      · exact hb hlen
      · exact (firstDirectionError_eq_none_iff ds).mp hfd hb
    · rintro (hb | hb | hb)
      · exact hb hwl
      · rcases hb with ⟨w, hw, hwlt⟩
        have := List.any_eq_false.mp hneg w hw
        simp at this
        exact absurd hwlt (not_lt.mpr this)
      · exact hsum hb
    · exact (firstConstraintKeyError_eq_none_iff ts cs).mp hck
    · rintro (hb | hb)
      · exact hil hb
      · exact (firstInputError_eq_none_iff data is).mp hfi hb
    · rintro ⟨t, ht, hmem⟩
      have := List.any_eq_false.mp hov t ht
      simp at this
      exact this hmem
  · rintro ⟨h2, h3, h4, h5, h6, h7, h8⟩
    have hft : firstTargetError data ts = none :=
      (firstTargetError_eq_none_iff data ts).mpr h3
    unfold rule4Violated at h4
    rcases not_or.mp h4 with ⟨h4a, h4b⟩
    have hlen : ds.length = ts.length := not_not.mp h4a
    have hfd : firstDirectionError ds = none :=
      (firstDirectionError_eq_none_iff ds).mpr h4b
    unfold rule5Violated at h5
    rcases not_or.mp h5 with ⟨h5a, h5bc⟩
    rcases not_or.mp h5bc with ⟨h5b, h5c⟩
    have hwl : ws.length = ts.length := not_not.mp h5a
    have hneg : ws.any (fun w => decide (w < 0)) = false := by
      rw [List.any_eq_false]
      intro w hw
      simp only [decide_eq_true_eq]
      exact fun hlt => h5b ⟨w, hw, hlt⟩
    have hck : firstConstraintKeyError ts cs = none :=
      (firstConstraintKeyError_eq_none_iff ts cs).mpr h6
    unfold rule7Violated at h7
    rcases not_or.mp h7 with ⟨h7a, h7b⟩
    have hfi : firstInputError data is = none :=
      (firstInputError_eq_none_iff data is).mpr h7b
    have hov : ts.any (fun t => is.contains t) = false := by
      rw [List.any_eq_false]
      intro t ht
      rw [List.elem_iff]
      exact fun hmem => h8 ⟨t, ht, hmem⟩
    exact vi_none data ts ds cs ws is h2 hft hlen hfd hwl hneg h5c hck h7a
      hfi hov

lemma validate_inputs_none_lengths {data : Dataset} {ts ds : List String}
    {cs : List (String × Constraint)} {ws : List ℚ} {is : List String}
    (h : _validate_inputs data ts ds cs ws is = none) :
    ds.length = ts.length ∧ ws.length = ts.length := by
  have hh := (validate_inputs_eq_none_iff data ts ds cs ws is).mp h
  have h4 := hh.2.2.1
  have h5 := hh.2.2.2.1
  unfold rule4Violated at h4
  unfold rule5Violated at h5
  exact ⟨not_not.mp (not_or.mp h4).1, not_not.mp (not_or.mp h5).1⟩

/-! ### No division by zero: the checked computation never fails -/

lemma mapM_safeDiv (l : List ℚ) (c d : ℚ) (hd : d ≠ 0) :
    l.mapM (fun v => safeDiv (v - c) d) =
      some (l.map (fun v => (v - c) / d)) := by
  induction l with
  | nil => rfl
  | cons x xs ih =>
    rw [List.mapM_cons, ih]
    simp [safeDiv, hd]

lemma scoreStepChecked_eq (df : List IndexedRow) (scores : List ℚ)
    (tr : String × String × ℚ) :
    scoreStepChecked df scores tr = some (scoreStep df scores tr) := by
  by_cases hw : tr.2.2 = 0
  · simp [scoreStepChecked, scoreStep, hw]
  · by_cases hm : listMax (df.map (fun r => r.2 tr.1)) =
        listMin (df.map (fun r => r.2 tr.1))
    · simp [scoreStepChecked, scoreStep, hw, hm]
    · have hd : listMax (df.map (fun r => r.2 tr.1)) -
          listMin (df.map (fun r => r.2 tr.1)) ≠ 0 := sub_ne_zero.mpr hm
      simp only [scoreStepChecked, scoreStep, if_neg hw, if_neg hm]
      rw [mapM_safeDiv _ _ _ hd]

lemma foldlM_scoreStepChecked (df : List IndexedRow)
    (l : List (String × String × ℚ)) (acc : List ℚ) :
    List.foldlM (scoreStepChecked df) acc l =
      some (List.foldl (scoreStep df) acc l) := by
  induction l generalizing acc with
  | nil => rfl
  | cons x xs ih =>
    rw [List.foldlM_cons, List.foldl_cons]
    simp [scoreStepChecked_eq, ih]

lemma calculate_scores_checked_eq (df : List IndexedRow) (ts ds : List String)
    (ws : List ℚ) :
    _calculate_scores_checked df ts ds ws =
      some (_calculate_scores df ts ds ws) := by
  unfold _calculate_scores_checked _calculate_scores
  rw [foldlM_scoreStepChecked]
  dsimp only
  have hr : List.foldl (scoreStep df) (df.map (fun _ => (0 : ℚ)))
      (ts.zip (ds.zip ws)) = rawScores df (ts.zip (ds.zip ws)) := rfl
  rw [hr]
  by_cases hlt : listMin (rawScores df (ts.zip (ds.zip ws))) <
      listMax (rawScores df (ts.zip (ds.zip ws)))
  · have hd : listMax (rawScores df (ts.zip (ds.zip ws))) -
        listMin (rawScores df (ts.zip (ds.zip ws))) ≠ 0 :=
      sub_ne_zero.mpr (ne_of_gt hlt)
    rw [if_pos hlt, if_pos hlt, mapM_safeDiv _ _ _ hd]
  · rw [if_neg hlt, if_neg hlt]

/-! ### Positional score equality for rows that agree on the targets -/

lemma scoreStep_getElem?_eq {df : List IndexedRow} {i j : Nat}
    (hi : i < df.length) (hj : j < df.length) (tr : String × String × ℚ)
    (hagree : (df.get ⟨i, hi⟩).2 tr.1 = (df.get ⟨j, hj⟩).2 tr.1)
    {acc : List ℚ} (hacc : acc[i]? = acc[j]?) :
    (scoreStep df acc tr)[i]? = (scoreStep df acc tr)[j]? := by
  unfold scoreStep
  by_cases hw : tr.2.2 = 0
  · simpa [hw] using hacc
  · by_cases hm : listMax (df.map (fun r => r.2 tr.1)) =
        listMin (df.map (fun r => r.2 tr.1))
    · simpa [hw, hm] using hacc
    · by_cases hd : tr.2.1 = "minimize" <;>
        simp [hw, hm, hd, List.getElem?_zipWith, List.getElem?_map,
          List.getElem?_eq_getElem hi, List.getElem?_eq_getElem hj, hacc,
          List.get_eq_getElem] at hagree ⊢ <;>
        rw [hagree]

lemma rawScores_getElem?_eq {df : List IndexedRow} {i j : Nat}
    (hi : i < df.length) (hj : j < df.length)
    (triples : List (String × String × ℚ))
    (h : ∀ tr ∈ triples, (df.get ⟨i, hi⟩).2 tr.1 = (df.get ⟨j, hj⟩).2 tr.1) :
    (rawScores df triples)[i]? = (rawScores df triples)[j]? := by
  unfold rawScores
  have hinv : ∀ (l : List (String × String × ℚ)) (acc : List ℚ),
      (∀ tr ∈ l, (df.get ⟨i, hi⟩).2 tr.1 = (df.get ⟨j, hj⟩).2 tr.1) →
      acc[i]? = acc[j]? →
      (List.foldl (scoreStep df) acc l)[i]? =
        (List.foldl (scoreStep df) acc l)[j]? := by
    intro l
    induction l with
    | nil => intro acc _ hacc; exact hacc
    | cons x xs ih =>
      intro acc hl hacc
      rw [List.foldl_cons]
      exact ih (scoreStep df acc x)
        (fun tr htr => hl tr (List.mem_cons_of_mem x htr))
        (scoreStep_getElem?_eq hi hj x (hl x (List.mem_cons_self x xs)) hacc)
  refine hinv triples _ h ?_
  have hzi : (df.map (fun _ => (0 : ℚ)))[i]? = some 0 := by
    rw [List.getElem?_map, List.getElem?_eq_getElem hi]
    rfl
  have hzj : (df.map (fun _ => (0 : ℚ)))[j]? = some 0 := by
    rw [List.getElem?_map, List.getElem?_eq_getElem hj]
    rfl
  rw [hzi, hzj]

lemma calculate_scores_getElem?_eq {df : List IndexedRow} {i j : Nat}
    (hi : i < df.length) (hj : j < df.length) (ts ds : List String)
    (ws : List ℚ)
    (h : ∀ t ∈ ts, (df.get ⟨i, hi⟩).2 t = (df.get ⟨j, hj⟩).2 t) :
    (_calculate_scores df ts ds ws)[i]? = (_calculate_scores df ts ds ws)[j]? := by
  unfold _calculate_scores
  have hraw := rawScores_getElem?_eq hi hj (ts.zip (ds.zip ws))
    (fun tr htr => h tr.1 (List.of_mem_zip htr).1)
  by_cases hlt : listMin (rawScores df (ts.zip (ds.zip ws))) <
      listMax (rawScores df (ts.zip (ds.zip ws)))
  · simp [hlt, List.getElem?_map, hraw]
  · simpa [hlt] using hraw

/-! ### Removing a skipped target from the triple list -/

lemma zip3_append (ts1 ts2 ds1 ds2 : List String) (ws1 ws2 : List ℚ)
    (t d : String) (w : ℚ) (h1 : ds1.length = ts1.length)
    (h2 : ws1.length = ts1.length) :
    (ts1 ++ t :: ts2).zip ((ds1 ++ d :: ds2).zip (ws1 ++ w :: ws2)) =
      ts1.zip (ds1.zip ws1) ++ (t, d, w) :: ts2.zip (ds2.zip ws2) := by
  rw [List.zip_append (h1.trans h2.symm),
    List.zip_append (by simp [List.length_zip, h1, h2]),
    List.zip_cons_cons, List.zip_cons_cons]

lemma zip3_append_short (ts1 ts2 ds1 ds2 : List String) (ws1 ws2 : List ℚ)
    (h1 : ds1.length = ts1.length) (h2 : ws1.length = ts1.length) :
    (ts1 ++ ts2).zip ((ds1 ++ ds2).zip (ws1 ++ ws2)) =
      ts1.zip (ds1.zip ws1) ++ ts2.zip (ds2.zip ws2) := by
  rw [List.zip_append (h1.trans h2.symm),
    List.zip_append (by simp [List.length_zip, h1, h2])]

lemma rawScores_skip_middle (df : List IndexedRow)
    (l1 l2 : List (String × String × ℚ)) (x : String × String × ℚ)
    (hx : ∀ acc, scoreStep df acc x = acc) :
    rawScores df (l1 ++ x :: l2) = rawScores df (l1 ++ l2) := by
  unfold rawScores
  exact foldl_skip_middle (scoreStep df) x hx l1 l2 _

/-! ### Bounds and degenerate behaviour of the score vector -/

lemma calculate_scores_bounds {df : List IndexedRow} {ts ds : List String}
    {ws : List ℚ}
    (h : listMin (rawScores df (ts.zip (ds.zip ws))) <
      listMax (rawScores df (ts.zip (ds.zip ws)))) :
    ∀ s ∈ _calculate_scores df ts ds ws, 0 ≤ s ∧ s ≤ 1 := by
  intro s hs
  unfold _calculate_scores at hs
  rw [if_pos h] at hs
  rcases List.mem_map.mp hs with ⟨x, hx, rfl⟩
  have h0 := listMin_le _ x hx
  have h1 := le_listMax _ x hx
  have hpos : (0 : ℚ) < listMax (rawScores df (ts.zip (ds.zip ws))) -
      listMin (rawScores df (ts.zip (ds.zip ws))) := sub_pos.mpr h
  constructor
  · exact div_nonneg (sub_nonneg.mpr h0) (le_of_lt hpos)
  · rw [div_le_one hpos]
    exact sub_le_sub_right h1 _

lemma calculate_scores_all_identical {df : List IndexedRow} {ts ds : List String}
    {ws : List ℚ} (h : ∀ t ∈ ts, ∀ r ∈ df, ∀ r2 ∈ df, r.2 t = r2.2 t) :
    _calculate_scores df ts ds ws = df.map (fun _ => 0) := by
  have hraw : rawScores df (ts.zip (ds.zip ws)) = df.map (fun _ => 0) := by
    unfold rawScores
    apply foldl_id_of_forall
    intro tr htr acc
    exact scoreStep_degenerate df acc tr
      (fun r hr r2 hr2 => h tr.1 (List.of_mem_zip htr).1 r hr r2 hr2)
  have heq : listMin (df.map (fun _ => (0 : ℚ))) =
      listMax (df.map (fun _ => (0 : ℚ))) := by
    apply listMin_eq_listMax_of_all_eq
    intro a ha b hb
    rcases List.mem_map.mp ha with ⟨r, _, rfl⟩
    rcases List.mem_map.mp hb with ⟨r2, _, rfl⟩
    rfl
  have hnlt : ¬listMin (df.map (fun _ => (0 : ℚ))) <
      listMax (df.map (fun _ => (0 : ℚ))) := by
    rw [heq]
    exact lt_irrefl _
  unfold _calculate_scores
  rw [hraw, if_neg hnlt]

/-! ### Concrete evaluations on the example dataset -/

lemma validate_inputs_example (cs : List (String × Constraint))
    (hck : firstConstraintKeyError ["Yield", "Cost"] cs = none) :
    _validate_inputs exData ["Yield", "Cost"] ["maximize", "minimize"] cs
      [1, 1] ["X1"] = none := by
  apply vi_none
  · unfold rule2Violated
    decide
  · rfl
  · rfl
  · rfl
  · rfl
  · rfl
  · norm_num
  · exact hck
  · decide
  · rfl
  · rfl

lemma analyze_example_cost45 :
    analyze exData ["Yield", "Cost"] ["maximize", "minimize"]
      [("Cost", Constraint.mk "<" 45)] [1, 1] ["X1"] 3
      = .success [((1 : Nat), exRow2, (0 : ℚ))] := by
  have h1 := validate_inputs_example [("Cost", Constraint.mk "<" 45)] rfl
  have h2 : _apply_constraints (indexedRows exData) ["Yield", "Cost"]
      [("Cost", Constraint.mk "<" 45)] = [(1, exRow2)] := rfl
  have h3 : _calculate_scores [((1 : Nat), exRow2)] ["Yield", "Cost"]
      ["maximize", "minimize"] [1, 1] = [0] := rfl
  have h0 : validate_data exData = none := rfl
  rw [analyze_happy_path h0 h1 rfl rfl (by rw [h2]; simp)
    (by unfold identifierName output_columns; decide), h2, h3]
  rfl

/-! ## Claim theorems -/

/-- Claim C1, counterexample: the dataset `cexData` with targets `A`, `B`
(both maximized, weights `[2, 2]`, no constraints, input `X`) passes
validation, its two filtered rows are distinct and both target columns are
non-degenerate, yet every composite score equals `2`, which lies outside
`[0, 1]`.  The final rescaling is skipped because all raw scores tie. -/
theorem C1_score_bounds_counterexample :
    validate_data cexData = none ∧
    _validate_inputs cexData ["A", "B"] ["maximize", "maximize"] []
      [2, 2] ["X"] = none ∧
    _apply_constraints (indexedRows cexData) ["A", "B"] [] =
      indexedRows cexData ∧
    cexRow1 "A" ≠ cexRow2 "A" ∧
    listMin ((indexedRows cexData).map (fun r => r.2 "A")) ≠
      listMax ((indexedRows cexData).map (fun r => r.2 "A")) ∧
    listMin ((indexedRows cexData).map (fun r => r.2 "B")) ≠
      listMax ((indexedRows cexData).map (fun r => r.2 "B")) ∧
    _calculate_scores (indexedRows cexData) ["A", "B"]
      ["maximize", "maximize"] [2, 2] = [2, 2] ∧
    (analyze cexData ["A", "B"] ["maximize", "maximize"] [] [2, 2]
      ["X"] 10).scoresOf = some [2, 2] ∧
    ¬((2 : ℚ) ≤ 1) := by
  refine ⟨?_, ?_, ?_, ?_, ?_, ?_, ?_, ?_, ?_⟩
  · simp [validate_data, cexData]
  · simp [_validate_inputs, firstTargetError, firstDirectionError,
      firstConstraintKeyError, firstInputError, cexData]
  · simp [_apply_constraints]
  · simp [cexRow1, cexRow2]
  · simp [indexedRows, cexData, cexRow1, cexRow2, List.enum, List.enumFrom,
      listMin, listMax]
  · simp [indexedRows, cexData, cexRow1, cexRow2, List.enum, List.enumFrom,
      listMin, listMax]
  · simp [_calculate_scores, rawScores, scoreStep, indexedRows, cexData,
      cexRow1, cexRow2, List.enum, List.enumFrom, listMin, listMax]
  · simp [analyze, validate_data, _validate_inputs, firstTargetError,
      firstDirectionError, firstConstraintKeyError, firstInputError,
      _apply_constraints, _calculate_scores, rawScores, scoreStep,
      indexedRows, cexData, cexRow1, cexRow2, List.enum, List.enumFrom,
      listMin, listMax, sortByScoreDesc, insertByScoreDesc, attachScores,
      score, AnalyzeResult.scoresOf, identifierName, output_columns]
    norm_num [score]
  · norm_num

/-- Claim C1, amended: every composite score returned by `_calculate_scores`
lies in `[0, 1]` whenever the raw (pre-rescaling) scores are not all equal;
when all filtered rows are identical on every target, every score is exactly
`0` (defined, not NaN); and no division by zero is ever executed (the checked
variant of the computation always succeeds). -/
theorem C1_score_bounds_amended (df : List IndexedRow) (ts ds : List String)
    (ws : List ℚ) :
    (listMin (rawScores df (ts.zip (ds.zip ws))) <
        listMax (rawScores df (ts.zip (ds.zip ws))) →
      ∀ s ∈ _calculate_scores df ts ds ws, 0 ≤ s ∧ s ≤ 1)
  ∧ ((∀ t ∈ ts, ∀ r ∈ df, ∀ r2 ∈ df, r.2 t = r2.2 t) →
      _calculate_scores df ts ds ws = df.map (fun _ => 0))
  ∧ _calculate_scores_checked df ts ds ws =
      some (_calculate_scores df ts ds ws) :=
  ⟨calculate_scores_bounds, calculate_scores_all_identical,
    calculate_scores_checked_eq df ts ds ws⟩

/-- Witness for the amended C1 theorem at the example dataset (scores not all
equal) and at a two-identical-row DataFrame (all rows identical on every
target). -/
theorem C1_score_bounds_amended_witness :
    (∀ s ∈ _calculate_scores (indexedRows exData) ["Yield", "Cost"]
        ["maximize", "minimize"] [1, 1], 0 ≤ s ∧ s ≤ 1)
  ∧ _calculate_scores [(0, zRow1), (1, zRow1)] ["Yield", "Cost"]
      ["maximize", "minimize"] [1, 1] =
      List.map (fun _ => 0) [(0, zRow1), (1, zRow1)] := by
  constructor
  · refine (C1_score_bounds_amended (indexedRows exData) ["Yield", "Cost"]
      ["maximize", "minimize"] [1, 1]).1 ?_
    simp [rawScores, scoreStep, indexedRows, exData, exRow1, exRow2, exRow3,
      List.enum, List.enumFrom, listMin, listMax]
    norm_num
  · exact (C1_score_bounds_amended [(0, zRow1), (1, zRow1)] ["Yield", "Cost"]
      ["maximize", "minimize"] [1, 1]).2.1 (by decide)

/-- Claim C6: a target column with identical values across all filtered rows
contributes exactly 0 to every row's composite score — dropping it (with its
direction and weight) leaves `_calculate_scores` unchanged — and the division
by `max - min` is never executed for it: the checked variant, which fails on
any division by zero, always succeeds. -/
theorem C6_degenerate_target (df : List IndexedRow) (ts1 ts2 ds1 ds2 : List String)
    (ws1 ws2 : List ℚ) (t d : String) (w : ℚ)
    (h1 : ds1.length = ts1.length) (h2 : ws1.length = ts1.length)
    (hconst : ∀ r ∈ df, ∀ r2 ∈ df, r.2 t = r2.2 t) :
    _calculate_scores df (ts1 ++ t :: ts2) (ds1 ++ d :: ds2) (ws1 ++ w :: ws2)
      = _calculate_scores df (ts1 ++ ts2) (ds1 ++ ds2) (ws1 ++ ws2)
  ∧ _calculate_scores_checked df (ts1 ++ t :: ts2) (ds1 ++ d :: ds2)
      (ws1 ++ w :: ws2) =
      some (_calculate_scores df (ts1 ++ t :: ts2) (ds1 ++ d :: ds2)
        (ws1 ++ w :: ws2)) := by
  constructor
  · unfold _calculate_scores
    rw [zip3_append ts1 ts2 ds1 ds2 ws1 ws2 t d w h1 h2,
      zip3_append_short ts1 ts2 ds1 ds2 ws1 ws2 h1 h2,
      rawScores_skip_middle df _ _ (t, d, w)
        (fun acc => scoreStep_degenerate df acc (t, d, w) hconst)]
  · exact calculate_scores_checked_eq df _ _ _

/-- Witness for C6: dropping the constant column `K` from the targets leaves
the scores unchanged, and the checked computation succeeds, on `zRows`. -/
theorem C6_degenerate_target_witness :
    _calculate_scores zRows ["Yield", "K"] ["maximize", "maximize"] [1, 1]
      = _calculate_scores zRows ["Yield"] ["maximize"] [1]
  ∧ _calculate_scores_checked zRows ["Yield", "K"] ["maximize", "maximize"]
      [1, 1] =
      some (_calculate_scores zRows ["Yield", "K"] ["maximize", "maximize"]
        [1, 1]) := by
  have h := C6_degenerate_target zRows ["Yield"] [] ["maximize"] [] [1] []
    "K" "maximize" 1 rfl rfl (by decide)
  exact ⟨h.1, h.2⟩

/-- Claim C8: a target with weight 0 has no influence on the composite
scores — dropping it (with its direction) leaves `_calculate_scores`
unchanged — and two rows that agree on every other target receive equal
scores. -/
theorem C8_zero_weight (df : List IndexedRow) (ts1 ts2 ds1 ds2 : List String)
    (ws1 ws2 : List ℚ) (t d : String)
    (h1 : ds1.length = ts1.length) (h2 : ws1.length = ts1.length) :
    _calculate_scores df (ts1 ++ t :: ts2) (ds1 ++ d :: ds2)
      (ws1 ++ (0 : ℚ) :: ws2)
      = _calculate_scores df (ts1 ++ ts2) (ds1 ++ ds2) (ws1 ++ ws2)
  ∧ ∀ (i j : Nat) (hi : i < df.length) (hj : j < df.length),
      (∀ t2 ∈ ts1 ++ ts2, (df.get ⟨i, hi⟩).2 t2 = (df.get ⟨j, hj⟩).2 t2) →
      (_calculate_scores df (ts1 ++ t :: ts2) (ds1 ++ d :: ds2)
        (ws1 ++ (0 : ℚ) :: ws2))[i]?
        = (_calculate_scores df (ts1 ++ t :: ts2) (ds1 ++ d :: ds2)
          (ws1 ++ (0 : ℚ) :: ws2))[j]? := by
  have hpart1 : _calculate_scores df (ts1 ++ t :: ts2) (ds1 ++ d :: ds2)
      (ws1 ++ (0 : ℚ) :: ws2)
      = _calculate_scores df (ts1 ++ ts2) (ds1 ++ ds2) (ws1 ++ ws2) := by
    unfold _calculate_scores
    rw [zip3_append ts1 ts2 ds1 ds2 ws1 ws2 t d 0 h1 h2,
      zip3_append_short ts1 ts2 ds1 ds2 ws1 ws2 h1 h2,
      rawScores_skip_middle df _ _ (t, d, 0)
        (fun acc => scoreStep_zero_weight df acc (t, d, 0) rfl)]
  refine ⟨hpart1, ?_⟩
  intro i j hi hj hagree
  rw [hpart1]
  exact calculate_scores_getElem?_eq hi hj (ts1 ++ ts2) (ds1 ++ ds2)
    (ws1 ++ ws2) hagree

/-- Witness for C8: on `zRows` (two rows that differ only on `Cost`), giving
`Cost` weight 0 makes the scores equal those computed from `Yield` alone, and
the two rows receive equal scores. -/
theorem C8_zero_weight_witness :
    _calculate_scores zRows ["Yield", "Cost"] ["maximize", "minimize"] [1, 0]
      = _calculate_scores zRows ["Yield"] ["maximize"] [1]
  ∧ (_calculate_scores zRows ["Yield", "Cost"] ["maximize", "minimize"]
      [1, 0])[0]?
      = (_calculate_scores zRows ["Yield", "Cost"] ["maximize", "minimize"]
        [1, 0])[1]? := by
  have h := C8_zero_weight zRows ["Yield"] [] ["maximize"] [] [1] []
    "Cost" "minimize" rfl rfl
  exact ⟨h.1, h.2 0 1 (by decide) (by decide) (by decide)⟩

/-- Claim C9: the comparator string `=` filters exactly like `==`; a
constraint whose comparator is none of the six recognized strings filters no
rows; and validation is independent of the comparator strings (rewriting
every comparator arbitrarily leaves `_validate_inputs` unchanged), so such a
constraint is accepted by validation and silently ignored. -/
theorem C9_comparator_semantics (df : List IndexedRow) (name : String) (v : ℚ)
    (c : Constraint) (data : Dataset) (ts ds : List String)
    (cs : List (String × Constraint)) (ws : List ℚ) (is : List String)
    (f : Constraint → String) :
    constraintFilter name ⟨"=", v⟩ df = constraintFilter name ⟨"==", v⟩ df
  ∧ (c.type ∉ ([">", ">=", "<", "<=", "==", "="] : List String) →
      constraintFilter name c df = df)
  ∧ _validate_inputs data ts ds
      (cs.map (fun nc => (nc.1, Constraint.mk (f nc.2) nc.2.value))) ws is
      = _validate_inputs data ts ds cs ws is := by
  refine ⟨?_, ?_, ?_⟩
  · simp [constraintFilter]
  · intro hno
    have hgt : c.type ≠ ">" := by intro h; exact hno (by simp [h])
    have hge : c.type ≠ ">=" := by intro h; exact hno (by simp [h])
    have hlt : c.type ≠ "<" := by intro h; exact hno (by simp [h])
    have hle : c.type ≠ "<=" := by intro h; exact hno (by simp [h])
    have heqq : c.type ≠ "==" := by intro h; exact hno (by simp [h])
    have heq1 : c.type ≠ "=" := by intro h; exact hno (by simp [h])
    simp [constraintFilter, hgt, hge, hlt, hle, heqq, heq1]
  · have hkeys : ∀ cs2 : List (String × Constraint),
        firstConstraintKeyError ts
          (cs2.map (fun nc => (nc.1, Constraint.mk (f nc.2) nc.2.value))) =
          firstConstraintKeyError ts cs2 := by
      intro cs2
      induction cs2 with
      | nil => rfl
      | cons nc cs2 ih =>
        rw [List.map_cons]
        unfold firstConstraintKeyError
        by_cases hm : nc.1 ∈ ts <;> simp [hm, ih]
    unfold _validate_inputs
    rw [hkeys cs]

/-- Witness for C9 at a concrete filter and a concrete validation call. -/
theorem C9_comparator_semantics_witness :
    constraintFilter "Cost" ⟨"=", 50⟩ zRows =
      constraintFilter "Cost" ⟨"==", 50⟩ zRows
  ∧ constraintFilter "Cost" ⟨"!=", 50⟩ zRows = zRows
  ∧ _validate_inputs exData ["Yield"] ["maximize"]
      ([("Yield", Constraint.mk "!=" 45)].map
        (fun nc => (nc.1, Constraint.mk "<" nc.2.value))) [1] ["X1"]
      = _validate_inputs exData ["Yield"] ["maximize"]
        [("Yield", Constraint.mk "!=" 45)] [1] ["X1"] := by
  have h := C9_comparator_semantics zRows "Cost" 50 ⟨"!=", 50⟩ exData
    ["Yield"] ["maximize"] [("Yield", Constraint.mk "!=" 45)] [1] ["X1"]
    (fun _ => "<")
  exact ⟨h.1, h.2.1 (by decide), h.2.2⟩

/-- Claim C3: every row of a successful output satisfies every constraint
whose key is a selected target (under the comparator semantics of
`constraintHolds`), and the filtered row set is independent of the order in
which the constraints are given: the constraints compose by logical AND. -/
theorem C3_constraint_soundness (data : Dataset) (ts ds : List String)
    (cs cs2 : List (String × Constraint)) (ws : List ℚ) (is : List String)
    (n : Nat) (out : List ScoredRow) :
    (analyze data ts ds cs ws is n = .success out →
      ∀ x ∈ out, ∀ nc ∈ cs, nc.1 ∈ ts → constraintHolds (x.2.1 nc.1) nc.2)
  ∧ (cs.Perm cs2 → ∀ df : List IndexedRow,
      _apply_constraints df ts cs = _apply_constraints df ts cs2) := by
  constructor
  · intro h x hx nc hnc hmem
    obtain ⟨_, _, _, _, hout⟩ := analyze_success_inv h
    subst hout
    have hx2 := List.mem_of_mem_take hx
    have hx3 := mem_of_mem_sortByScoreDesc hx2
    have hx4 := mem_attachScores hx3
    exact (mem_apply_constraints hx4).2 nc hnc hmem
  · intro hperm df
    exact apply_constraints_perm_invariant df ts hperm

/-- Witness for C3: the `Cost < 45` scenario of spec §8 keeps exactly the
row with `Cost = 40`, which satisfies the constraint, and swapping two
constraints leaves the filtered rows unchanged. -/
theorem C3_constraint_soundness_witness :
    (∀ x ∈ [((1 : Nat), exRow2, (0 : ℚ))],
      ∀ nc ∈ [("Cost", Constraint.mk "<" 45)], nc.1 ∈ ["Yield", "Cost"] →
        constraintHolds (x.2.1 nc.1) nc.2)
  ∧ _apply_constraints (indexedRows exData) ["Yield", "Cost"]
      [("Cost", Constraint.mk "<" 45), ("Yield", Constraint.mk ">" 75)]
      = _apply_constraints (indexedRows exData) ["Yield", "Cost"]
        [("Yield", Constraint.mk ">" 75), ("Cost", Constraint.mk "<" 45)] := by
  have h := C3_constraint_soundness exData ["Yield", "Cost"]
    ["maximize", "minimize"] [("Cost", Constraint.mk "<" 45)]
    [("Yield", Constraint.mk ">" 75), ("Cost", Constraint.mk "<" 45)]
    [1, 1] ["X1"] 3 [((1 : Nat), exRow2, (0 : ℚ))]
  constructor
  · exact h.1 analyze_example_cost45
  · exact (C3_constraint_soundness exData ["Yield", "Cost"]
      ["maximize", "minimize"]
      [("Cost", Constraint.mk "<" 45), ("Yield", Constraint.mk ">" 75)]
      [("Yield", Constraint.mk ">" 75), ("Cost", Constraint.mk "<" 45)]
      [1, 1] ["X1"] 3 []).2 (List.Perm.swap _ _ _) (indexedRows exData)

/-- Claim C5: when validation passes but the constraints eliminate every
row, `analyze` returns exactly the no-rows failure; scoring is never
reached. -/
theorem C5_no_rows_failure (data : Dataset) (ts ds : List String)
    (cs : List (String × Constraint)) (ws : List ℚ) (is : List String)
    (n : Nat) (h0 : validate_data data = none)
    (h1 : _validate_inputs data ts ds cs ws is = none)
    (h2 : _apply_constraints (indexedRows data) ts cs = []) :
    analyze data ts ds cs ws is n =
      .failure "No rows satisfy the specified constraints." := by
  obtain ⟨hd, hw⟩ := validate_inputs_none_lengths h1
  exact analyze_empty_filter h0 h1 hd hw h2

/-- Witness for C5: the constraint `Cost < 0` eliminates every row of the
example dataset. -/
theorem C5_no_rows_failure_witness :
    analyze exData ["Yield", "Cost"] ["maximize", "minimize"]
      [("Cost", Constraint.mk "<" 0)] [1, 1] ["X1"] 10
      = .failure "No rows satisfy the specified constraints." := by
  refine C5_no_rows_failure exData ["Yield", "Cost"] ["maximize", "minimize"]
    [("Cost", Constraint.mk "<" 0)] [1, 1] ["X1"] 10 rfl ?_ rfl
  exact validate_inputs_example [("Cost", Constraint.mk "<" 0)] rfl

/-- Claim C7: the row count of a successful output equals
`min top_n (number of rows surviving constraint filtering)`. -/
theorem C7_topn_cap (data : Dataset) (ts ds : List String)
    (cs : List (String × Constraint)) (ws : List ℚ) (is : List String)
    (n : Nat) (out : List ScoredRow)
    (h : analyze data ts ds cs ws is n = .success out) :
    out.length = min n (_apply_constraints (indexedRows data) ts cs).length := by
  obtain ⟨h0, h1, hne, hid, hout⟩ := analyze_success_inv h
  subst hout
  rw [List.length_take, sortByScoreDesc_length, attachScores_length,
    calculate_scores_length, min_self]

/-- Witness for C7: with `top_n = 3` and one surviving row the output has
`min 3 1 = 1` row. -/
theorem C7_topn_cap_witness :
    ([((1 : Nat), exRow2, (0 : ℚ))] : List ScoredRow).length =
      min 3 (_apply_constraints (indexedRows exData) ["Yield", "Cost"]
        [("Cost", Constraint.mk "<" 45)]).length := by
  exact C7_topn_cap exData ["Yield", "Cost"] ["maximize", "minimize"]
    [("Cost", Constraint.mk "<" 45)] [1, 1] ["X1"] 3 _ analyze_example_cost45

lemma validate_inputs_example_pass :
    _validate_inputs exData ["Yield"] ["maximize"] [] [1] ["Pass"] = none := by
  apply vi_none
  · unfold rule2Violated
    decide
  · rfl
  · rfl
  · rfl
  · rfl
  · rfl
  · norm_num
  · rfl
  · decide
  · rfl
  · rfl

/-- Claim C10, counterexample: the request with target `Yield` and input
`Pass` on the example dataset passes validation (`Pass` is an existing
numeric column disjoint from the targets) and its filtered set is non-empty,
yet with `top_n = 0` `analyze` does not succeed with zero rows: the
identifier-column insertion collides with the selected `Pass` column
(`result_df.insert`, optimization.py line 127), raises, and the `except` at
line 151 returns a failure. -/
theorem C10_topn_zero_counterexample :
    validate_data exData = none ∧
    _validate_inputs exData ["Yield"] ["maximize"] [] [1] ["Pass"] = none ∧
    _apply_constraints (indexedRows exData) ["Yield"] [] ≠ [] ∧
    analyze exData ["Yield"] ["maximize"] [] [1] ["Pass"] 0 =
      .failure "Error during optimization: cannot insert Pass, already exists" := by
  have hne : _apply_constraints (indexedRows exData) ["Yield"] [] ≠ [] := by
    have heq : _apply_constraints (indexedRows exData) ["Yield"] [] =
        indexedRows exData := rfl
    rw [heq]
    simp [indexedRows, exData]
  refine ⟨rfl, validate_inputs_example_pass, hne, ?_⟩
  have h0 : validate_data exData = none := rfl
  have h := analyze_insert_conflict (n := 0) h0 validate_inputs_example_pass
    rfl rfl hne (by unfold identifierName output_columns; decide)
  have hs : ("Error during optimization: cannot insert " ++
      identifierName exData ++ ", already exists") =
      "Error during optimization: cannot insert Pass, already exists" := rfl
  rw [hs] at h
  exact h

/-- Claim C10 (amended): `top_n` itself is never validated.  For `top_n = 0`
and an otherwise valid request whose identifier column name (`Pass` when the
dataset has a `Pass` or `pass` column, else `Row Index`) is not among the
selected output columns, `analyze` succeeds with an empty output table and no
error; when the identifier name collides with a selected column, `analyze`
fails for every `top_n` with the wrapped pandas insert error — still without
any validation of `top_n`. -/
theorem C10_topn_zero_amended (data : Dataset) (ts ds : List String)
    (cs : List (String × Constraint)) (ws : List ℚ) (is : List String)
    (h0 : validate_data data = none)
    (h1 : _validate_inputs data ts ds cs ws is = none)
    (h2 : _apply_constraints (indexedRows data) ts cs ≠ []) :
    (identifierName data ∉ output_columns is ts →
      analyze data ts ds cs ws is 0 = .success [])
  ∧ (identifierName data ∈ output_columns is ts →
      ∀ n : Nat, analyze data ts ds cs ws is n =
        .failure ("Error during optimization: cannot insert " ++
          identifierName data ++ ", already exists")) := by
  obtain ⟨hd, hw⟩ := validate_inputs_none_lengths h1
  constructor
  · intro h5
    rw [analyze_happy_path h0 h1 hd hw h2 h5]
    simp
  · intro h5 n
    exact analyze_insert_conflict h0 h1 hd hw h2 h5

/-- Witness for the amended C10: the example dataset succeeds with zero rows
at `top_n = 0` when the inputs avoid `Pass`, and fails with the insert error
(here at `top_n = 7`) when `Pass` is a selected input. -/
theorem C10_topn_zero_amended_witness :
    analyze exData ["Yield", "Cost"] ["maximize", "minimize"] [] [1, 1]
      ["X1"] 0 = .success []
  ∧ analyze exData ["Yield"] ["maximize"] [] [1] ["Pass"] 7 =
      .failure "Error during optimization: cannot insert Pass, already exists" := by
  have hne1 : _apply_constraints (indexedRows exData) ["Yield", "Cost"] []
      ≠ [] := by
    have heq : _apply_constraints (indexedRows exData) ["Yield", "Cost"] [] =
        indexedRows exData := rfl
    rw [heq]
    simp [indexedRows, exData]
  have hne2 : _apply_constraints (indexedRows exData) ["Yield"] [] ≠ [] := by
    have heq : _apply_constraints (indexedRows exData) ["Yield"] [] =
        indexedRows exData := rfl
    rw [heq]
    simp [indexedRows, exData]
  constructor
  · exact (C10_topn_zero_amended exData ["Yield", "Cost"]
      ["maximize", "minimize"] [] [1, 1] ["X1"] rfl
      (validate_inputs_example [] rfl) hne1).1
      (by unfold identifierName output_columns; decide)
  · have h := (C10_topn_zero_amended exData ["Yield"] ["maximize"] [] [1]
      ["Pass"] rfl validate_inputs_example_pass hne2).2
      (by unfold identifierName output_columns; decide) 7
    have hs : ("Error during optimization: cannot insert " ++
        identifierName exData ++ ", already exists") =
        "Error during optimization: cannot insert Pass, already exists" := rfl
    rw [hs] at h
    exact h

/-- Claim C4: for every request violating a validation rule, `analyze`
returns a failure carrying the error of the first violated rule in the
specified order (dataset non-empty; target count; targets exist and numeric;
directions; weights; constraint keys; inputs; overlap), each rule producing
its own distinct message, and the failure is the sole result: no filtering or
scoring output is produced. -/
theorem C4_validation_first_error (data : Dataset) (ts ds : List String)
    (cs : List (String × Constraint)) (ws : List ℚ) (is : List String)
    (n : Nat) :
    (rule1Violated data →
      analyze data ts ds cs ws is n = .failure "DataFrame is empty")
  ∧ (¬rule1Violated data → rule2Violated ts →
      analyze data ts ds cs ws is n = .failure
        (if ts.length = 0 then "At least one target variable must be selected."
          else "Maximum 5 target variables allowed."))
  ∧ (¬rule1Violated data → ¬rule2Violated ts → rule3Violated data ts →
      ∃ e, firstTargetError data ts = some e ∧
        analyze data ts ds cs ws is n = .failure e)
  ∧ (¬rule1Violated data → ¬rule2Violated ts → ¬rule3Violated data ts →
      rule4Violated ts ds →
      ∃ e, analyze data ts ds cs ws is n = .failure e ∧
        (ds.length ≠ ts.length →
          e = "Optimization direction must be specified for all " ++
            toString ts.length ++ " targets.") ∧
        (ds.length = ts.length → firstDirectionError ds = some e))
  ∧ (¬rule1Violated data → ¬rule2Violated ts → ¬rule3Violated data ts →
      ¬rule4Violated ts ds → rule5Violated ts ws →
      ∃ e, analyze data ts ds cs ws is n = .failure e ∧
        (ws.length ≠ ts.length →
          e = "Weights must be specified for all " ++
            toString ts.length ++ " targets.") ∧
        (ws.length = ts.length → (∃ w ∈ ws, w < 0) →
          e = "All weights must be non-negative.") ∧
        (ws.length = ts.length → (∀ w ∈ ws, 0 ≤ w) →
          e = "At least one weight must be positive."))
  ∧ (¬rule1Violated data → ¬rule2Violated ts → ¬rule3Violated data ts →
      ¬rule4Violated ts ds → ¬rule5Violated ts ws → rule6Violated ts cs →
      ∃ e, firstConstraintKeyError ts cs = some e ∧
        analyze data ts ds cs ws is n = .failure e)
  ∧ (¬rule1Violated data → ¬rule2Violated ts → ¬rule3Violated data ts →
      ¬rule4Violated ts ds → ¬rule5Violated ts ws → ¬rule6Violated ts cs →
      rule7Violated data is →
      ∃ e, analyze data ts ds cs ws is n = .failure e ∧
        (is.length = 0 →
          e = "At least one input variable must be selected.") ∧
        (is.length ≠ 0 → firstInputError data is = some e))
  ∧ (¬rule1Violated data → ¬rule2Violated ts → ¬rule3Violated data ts →
      ¬rule4Violated ts ds → ¬rule5Violated ts ws → ¬rule6Violated ts cs →
      ¬rule7Violated data is → rule8Violated ts is →
      analyze data ts ds cs ws is n =
        .failure "Target variables and input variables cannot overlap.") := by
  have hv0 : ¬rule1Violated data → validate_data data = none :=
    (validate_data_eq_none_iff data).mpr
  refine ⟨?_, ?_, ?_, ?_, ?_, ?_, ?_, ?_⟩
  · intro h1
    have hv : validate_data data = some "DataFrame is empty" := by
      unfold validate_data
      unfold rule1Violated at h1
      simp [h1]
    exact analyze_of_validate_data_some hv
  · intro h1 h2
    exact analyze_of_validate_inputs_some (hv0 h1)
      (vi_some_rule2 data ts ds cs ws is h2)
  · intro h1 h2 h3
    cases hfe : firstTargetError data ts with
    | none => exact absurd h3 ((firstTargetError_eq_none_iff data ts).mp hfe)
    | some e =>
      exact ⟨e, rfl, analyze_of_validate_inputs_some (hv0 h1)
        (vi_some_rule3 data ts ds cs ws is h2 hfe)⟩
  · intro h1 h2 h3 h4
    have hft := (firstTargetError_eq_none_iff data ts).mpr h3
    by_cases hlen : ds.length = ts.length
    · have hbad : ∃ d ∈ ds, d ≠ "maximize" ∧ d ≠ "minimize" := by
        rcases h4 with h | h
        · exact absurd hlen h
        · exact h
      cases hfe : firstDirectionError ds with
      | none => exact absurd hbad ((firstDirectionError_eq_none_iff ds).mp hfe)
      | some e =>
        exact ⟨e, analyze_of_validate_inputs_some (hv0 h1)
          (vi_some_rule4b data ts ds cs ws is h2 hft hlen hfe),
          fun hne => absurd hlen hne, fun _ => rfl⟩
    · exact ⟨_, analyze_of_validate_inputs_some (hv0 h1)
        (vi_some_rule4a data ts ds cs ws is h2 hft hlen),
        fun _ => rfl, fun heq => absurd heq hlen⟩
  · intro h1 h2 h3 h4 h5
    have hft := (firstTargetError_eq_none_iff data ts).mpr h3
    unfold rule4Violated at h4
    rcases not_or.mp h4 with ⟨h4a, h4b⟩
    have hlen : ds.length = ts.length := not_not.mp h4a
    have hfd : firstDirectionError ds = none :=
      (firstDirectionError_eq_none_iff ds).mpr h4b
    by_cases hwl : ws.length = ts.length
    · by_cases hex : ∃ w ∈ ws, w < 0
      · have hany : ws.any (fun w => decide (w < 0)) = true := by
          rcases hex with ⟨w, hw, hlt⟩
          exact List.any_eq_true.mpr ⟨w, hw, by simpa using hlt⟩
        refine ⟨_, analyze_of_validate_inputs_some (hv0 h1)
          (vi_some_rule5b data ts ds cs ws is h2 hft hlen hfd hwl hany),
          fun hne => absurd hwl hne, fun _ _ => rfl, fun _ hall => ?_⟩
        rcases hex with ⟨w, hw, hlt⟩
        exact absurd (hall w hw) (not_le.mpr hlt)
      · have hanyf : ws.any (fun w => decide (w < 0)) = false := by
          rw [List.any_eq_false]
          intro w hw
          simp only [decide_eq_true_eq]
          exact fun hlt => hex ⟨w, hw, hlt⟩
        have hsum : ws.sum = 0 := by
          rcases h5 with h | h | h
          · exact absurd hwl h
          · exact absurd h hex
          · exact h
        refine ⟨_, analyze_of_validate_inputs_some (hv0 h1)
          (vi_some_rule5c data ts ds cs ws is h2 hft hlen hfd hwl hanyf hsum),
          fun hne => absurd hwl hne, fun _ hex2 => absurd hex2 hex,
          fun _ _ => rfl⟩
    · exact ⟨_, analyze_of_validate_inputs_some (hv0 h1)
        (vi_some_rule5a data ts ds cs ws is h2 hft hlen hfd hwl),
        fun _ => rfl, fun heq _ => absurd heq hwl, fun heq _ => absurd heq hwl⟩
  · intro h1 h2 h3 h4 h5 h6
    have hft := (firstTargetError_eq_none_iff data ts).mpr h3
    unfold rule4Violated at h4
    rcases not_or.mp h4 with ⟨h4a, h4b⟩
    have hlen : ds.length = ts.length := not_not.mp h4a
    have hfd : firstDirectionError ds = none :=
      (firstDirectionError_eq_none_iff ds).mpr h4b
    unfold rule5Violated at h5
    rcases not_or.mp h5 with ⟨h5a, h5bc⟩
    rcases not_or.mp h5bc with ⟨h5b, h5c⟩
    have hwl : ws.length = ts.length := not_not.mp h5a
    have hanyf : ws.any (fun w => decide (w < 0)) = false := by
      rw [List.any_eq_false]
      intro w hw
      simp only [decide_eq_true_eq]
      exact fun hlt => h5b ⟨w, hw, hlt⟩
    cases hfe : firstConstraintKeyError ts cs with
    | none =>
      exact absurd h6 ((firstConstraintKeyError_eq_none_iff ts cs).mp hfe)
    | some e =>
      exact ⟨e, rfl, analyze_of_validate_inputs_some (hv0 h1)
        (vi_some_rule6 data ts ds cs ws is h2 hft hlen hfd hwl hanyf h5c hfe)⟩
  · intro h1 h2 h3 h4 h5 h6 h7
    have hft := (firstTargetError_eq_none_iff data ts).mpr h3
    unfold rule4Violated at h4
    rcases not_or.mp h4 with ⟨h4a, h4b⟩
    have hlen : ds.length = ts.length := not_not.mp h4a
    have hfd : firstDirectionError ds = none :=
      (firstDirectionError_eq_none_iff ds).mpr h4b
    unfold rule5Violated at h5
    rcases not_or.mp h5 with ⟨h5a, h5bc⟩
    rcases not_or.mp h5bc with ⟨h5b, h5c⟩
    have hwl : ws.length = ts.length := not_not.mp h5a
    have hanyf : ws.any (fun w => decide (w < 0)) = false := by
      rw [List.any_eq_false]
      intro w hw
      simp only [decide_eq_true_eq]
      exact fun hlt => h5b ⟨w, hw, hlt⟩
    have hck : firstConstraintKeyError ts cs = none :=
      (firstConstraintKeyError_eq_none_iff ts cs).mpr h6
    by_cases hil : is.length = 0
    · exact ⟨_, analyze_of_validate_inputs_some (hv0 h1)
        (vi_some_rule7a data ts ds cs ws is h2 hft hlen hfd hwl hanyf h5c
          hck hil),
        fun _ => rfl, fun hne => absurd hil hne⟩
    · have hbad : ∃ v ∈ is, v ∉ data.columns ∨ data.numeric v = false := by
        rcases h7 with h | h
        · exact absurd h hil
        · exact h
      cases hfe : firstInputError data is with
      | none => exact absurd hbad ((firstInputError_eq_none_iff data is).mp hfe)
      | some e =>
        exact ⟨e, analyze_of_validate_inputs_some (hv0 h1)
          (vi_some_rule7b data ts ds cs ws is h2 hft hlen hfd hwl hanyf h5c
            hck hil hfe),
          fun h0 => absurd h0 hil, fun _ => rfl⟩
  · intro h1 h2 h3 h4 h5 h6 h7 h8
    have hft := (firstTargetError_eq_none_iff data ts).mpr h3
    unfold rule4Violated at h4
    rcases not_or.mp h4 with ⟨h4a, h4b⟩
    have hlen : ds.length = ts.length := not_not.mp h4a
    have hfd : firstDirectionError ds = none :=
      (firstDirectionError_eq_none_iff ds).mpr h4b
    unfold rule5Violated at h5
    rcases not_or.mp h5 with ⟨h5a, h5bc⟩
    rcases not_or.mp h5bc with ⟨h5b, h5c⟩
    have hwl : ws.length = ts.length := not_not.mp h5a
    have hanyf : ws.any (fun w => decide (w < 0)) = false := by
      rw [List.any_eq_false]
      intro w hw
      simp only [decide_eq_true_eq]
      exact fun hlt => h5b ⟨w, hw, hlt⟩
    have hck : firstConstraintKeyError ts cs = none :=
      (firstConstraintKeyError_eq_none_iff ts cs).mpr h6
    unfold rule7Violated at h7
    rcases not_or.mp h7 with ⟨h7a, h7b⟩
    have hfi : firstInputError data is = none :=
      (firstInputError_eq_none_iff data is).mpr h7b
    have hov : ts.any (fun t => is.contains t) = true := by
      rcases h8 with ⟨t, ht, hmem⟩
      exact List.any_eq_true.mpr ⟨t, ht, List.elem_iff.mpr hmem⟩
    exact analyze_of_validate_inputs_some (hv0 h1)
      (vi_some_rule8 data ts ds cs ws is h2 hft hlen hfd hwl hanyf h5c hck
        h7a hfi hov)

/-- Witness for C4: one concrete violating request per validation rule, each
yielding exactly that rule's failure message. -/
theorem C4_validation_first_error_witness :
    analyze emptyData ["A"] ["maximize"] [] [1] ["A"] 10 =
      .failure "DataFrame is empty"
  ∧ analyze exData [] [] [] [] ["X1"] 10 =
      .failure "At least one target variable must be selected."
  ∧ analyze exData ["Nope"] ["maximize"] [] [1] ["X1"] 10 =
      .failure "Target variable Nope not found in data."
  ∧ analyze exData ["Yield"] [] [] [1] ["X1"] 10 =
      .failure "Optimization direction must be specified for all 1 targets."
  ∧ analyze exData ["Yield"] ["maximize"] [] [-1] ["X1"] 10 =
      .failure "All weights must be non-negative."
  ∧ analyze exData ["Yield"] ["maximize"] [("Zzz", Constraint.mk ">" 1)]
      [1] ["X1"] 10 =
      .failure "Constraint specified for Zzz but this target is not selected."
  ∧ analyze exData ["Yield"] ["maximize"] [] [1] [] 10 =
      .failure "At least one input variable must be selected."
  ∧ analyze exData ["Yield"] ["maximize"] [] [1] ["Yield"] 10 =
      .failure "Target variables and input variables cannot overlap." := by
  have hne1 : ¬rule1Violated exData := by
    unfold rule1Violated
    simp [exData]
  have h2y : ¬rule2Violated ["Yield"] := by
    unfold rule2Violated
    decide
  have h3y : ¬rule3Violated exData ["Yield"] := by
    unfold rule3Violated
    decide
  have h4y : ¬rule4Violated ["Yield"] ["maximize"] := by
    unfold rule4Violated
    decide
  have h5y : ¬rule5Violated ["Yield"] [1] := by
    unfold rule5Violated
    refine not_or.mpr ⟨by decide, not_or.mpr ⟨by decide, by simp⟩⟩
  refine ⟨?_, ?_, ?_, ?_, ?_, ?_, ?_, ?_⟩
  · exact (C4_validation_first_error emptyData ["A"] ["maximize"] [] [1]
      ["A"] 10).1 rfl
  · simpa using (C4_validation_first_error exData [] [] [] [] ["X1"] 10).2.1
      hne1 (Or.inl rfl)
  · obtain ⟨e, he, ha⟩ := (C4_validation_first_error exData ["Nope"]
      ["maximize"] [] [1] ["X1"] 10).2.2.1 hne1
      (by unfold rule2Violated; decide)
      ⟨"Nope", by decide, Or.inl (by decide)⟩
    have hmsg : firstTargetError exData ["Nope"] =
        some "Target variable Nope not found in data." := rfl
    rw [hmsg] at he
    rw [← Option.some.inj he] at ha
    exact ha
  · obtain ⟨e, ha, hm, _⟩ := (C4_validation_first_error exData ["Yield"]
      [] [] [1] ["X1"] 10).2.2.2.1 hne1 h2y h3y (Or.inl (by decide))
    have hmsg : e = "Optimization direction must be specified for all 1 targets." := by
      rw [hm (by decide)]
      rfl
    rw [hmsg] at ha
    exact ha
  · obtain ⟨e, ha, _, hm, _⟩ := (C4_validation_first_error exData ["Yield"]
      ["maximize"] [] [-1] ["X1"] 10).2.2.2.2.1 hne1 h2y h3y h4y
      (Or.inr (Or.inl ⟨-1, by decide, by norm_num⟩))
    rw [hm rfl ⟨-1, by decide, by norm_num⟩] at ha
    exact ha
  · obtain ⟨e, he, ha⟩ := (C4_validation_first_error exData ["Yield"]
      ["maximize"] [("Zzz", Constraint.mk ">" 1)] [1] ["X1"] 10).2.2.2.2.2.1
      hne1 h2y h3y h4y h5y
      ⟨("Zzz", Constraint.mk ">" 1), List.mem_cons_self _ _, by decide⟩
    have hmsg : firstConstraintKeyError ["Yield"]
        [("Zzz", Constraint.mk ">" 1)] =
        some "Constraint specified for Zzz but this target is not selected." :=
      rfl
    rw [hmsg] at he
    rw [← Option.some.inj he] at ha
    exact ha
  · obtain ⟨e, ha, hm, _⟩ := (C4_validation_first_error exData ["Yield"]
      ["maximize"] [] [1] [] 10).2.2.2.2.2.2.1 hne1 h2y h3y h4y h5y
      (by simp [rule6Violated]) (Or.inl rfl)
    rw [hm rfl] at ha
    exact ha
  · exact (C4_validation_first_error exData ["Yield"] ["maximize"] [] [1]
      ["Yield"] 10).2.2.2.2.2.2.2 hne1 h2y h3y h4y h5y
      (by simp [rule6Violated])
      (by unfold rule7Violated; decide)
      ⟨"Yield", by decide, by decide⟩

end DataAnalysisApp
